import Mathlib

set_option maxRecDepth 4000

/-
  Verification development for the kompose transformer core.

  Shallow embedding of:
    - pkg/transformer/kubernetes/kubernetes.go  (Kubernetes transformer)
    - pkg/transformer/openshift/openshift.go    (OpenShift transformer)

  Helper functions that live in files of the repository that are not part of
  the sources at hand (k8sutils.go, transformer/utils.go) are modelled from the
  specification and are marked as such in their doc comments.  External
  collaborators (docker build/push, git introspection, the cluster control
  plane) are modelled as oracle records, following the interface contracts of
  the specification.
-/

namespace Kompose

/-- Truncation to a signed 32-bit value, mirroring Go `int32(x)` conversions. -/
def toInt32 (n : Int) : Int :=
  (n + 2 ^ 31) % 2 ^ 32 - 2 ^ 31

/-- Modelled from the spec: the single identifying label key used by
`transformer.ConfigLabels` (transformer/utils.go, not among the sources):
"every object that is a product of one service carries a single identifying
label key mapped to that service's name". -/
def Selector : String := "service"

/-- Modelled from the spec: `transformer.ConfigLabels` (transformer/utils.go,
not among the sources) builds the single-entry label set mapping the selector
key to the service name. -/
def ConfigLabels (name : String) : List (String × String) :=
  [(Selector, name)]

/-- One declared port mapping of a service (kobject.Ports). -/
structure PortMapping where
  HostPort : Int := 0
  ContainerPort : Int := 0
  Protocol : String := "TCP"
  HostIP : String := ""
  deriving DecidableEq, Repr

/-- One declared volume mount of a service (kobject.Vols). -/
structure Vols where
  VolumeName : String := ""
  Container : String := ""
  Host : String := ""
  Mode : String := ""
  VFrom : String := ""
  PVCName : String := ""
  deriving DecidableEq, Repr

/-- An environment variable name/value pair. -/
structure EnvVar where
  Name : String := ""
  Value : String := ""
  deriving DecidableEq, Repr

/-- One deployable unit (kobject.ServiceConfig), restricted to the fields the
transformer sources read. -/
structure ServiceConfig where
  ContainerName : String := ""
  Image : String := ""
  Environment : List EnvVar := []
  Port : List PortMapping := []
  Volumes : List Vols := []
  Restart : String := ""
  Replicas : Int := 0
  Build : String := ""
  BuildArgs : List (String × String) := []
  Dockerfile : String := ""
  ExposeService : String := ""
  CapAdd : List String := []
  CapDrop : List String := []
  TmpFs : List String := []
  deriving DecidableEq, Repr

instance : Inhabited ServiceConfig := ⟨{}⟩

/-- Global run configuration (kobject.ConvertOptions), restricted to the fields
the transformer sources read. -/
structure ConvertOptions where
  Build : String := ""
  InputFiles : List String := []
  Replicas : Int := 1
  IsReplicaSetFlag : Bool := false
  CreateD : Bool := false
  CreateDS : Bool := false
  CreateRC : Bool := false
  IsDeploymentFlag : Bool := false
  IsDaemonSetFlag : Bool := false
  IsReplicationControllerFlag : Bool := false
  CreateDeploymentConfig : Bool := false
  IsDeploymentConfigFlag : Bool := false
  BuildRepo : String := ""
  BuildBranch : String := ""
  InsecureRepository : Bool := false
  EmptyVols : Bool := false
  Namespace : String := ""
  IsNamespaceFlag : Bool := false
  deriving Repr

/-- The service model (kobject.KomposeObject): a mapping from service name to
its configuration.  Represented as an association list. -/
structure KomposeObject where
  ServiceConfigs : List (String × ServiceConfig) := []
  LoadedFrom : String := ""
  deriving Repr

/-- One port entry of a generated network-exposure object (api.ServicePort).
`Protocol = none` models the field being omitted from the output. -/
structure ServicePort where
  Name : String
  Protocol : Option String
  Port : Int
  TargetPort : Int
  deriving DecidableEq, Repr

/-- The closed set of resource-object kinds the two transformers emit. -/
inductive ObjKind where
  | deployment
  | daemonSet
  | replicationController
  | pod
  | service
  | pvc
  | ingress
  | route
  | deploymentConfig
  | imageStream
  | buildConfig
  deriving DecidableEq, Repr

/-- A generated resource object: the builders' product, restricted to the
fields the claims and the orchestrators observe. -/
inductive KObject where
  | deployment (name : String) (labels : List (String × String)) (replicas : Int)
      (image : String)
  | daemonSet (name : String) (labels : List (String × String)) (image : String)
  | replicationController (name : String) (labels : List (String × String))
      (replicas : Int) (image : String)
  | pod (name : String) (labels : List (String × String)) (image : String)
  | service (name : String) (labels : List (String × String))
      (selector : List (String × String)) (ports : List ServicePort)
      (clusterIP : String)
  | pvc (name : String) (labels : List (String × String)) (accessMode : String)
  | ingress (name : String) (labels : List (String × String)) (host : String)
      (backendService : String) (backendPort : Int)
  | route (name : String) (labels : List (String × String)) (host : String)
      (toService : String) (targetPort : Int)
  | deploymentConfig (name : String) (labels : List (String × String))
      (replicas : Int) (tag : String) (containerName : String)
  | imageStream (name : String) (labels : List (String × String))
      (tags : Option (String × String)) (insecure : Bool)
  | buildConfig (name : String) (labels : List (String × String))
      (repo : String) (branch : String) (contextDir : String)
      (dockerfile : String) (env : List EnvVar) (outputName : String)
  deriving DecidableEq, Repr

/-- The kind tag of a generated object (the concrete type a Go type switch
dispatches on). -/
def KObject.kind : KObject → ObjKind
  | .deployment .. => .deployment
  | .daemonSet .. => .daemonSet
  | .replicationController .. => .replicationController
  | .pod .. => .pod
  | .service .. => .service
  | .pvc .. => .pvc
  | .ingress .. => .ingress
  | .route .. => .route
  | .deploymentConfig .. => .deploymentConfig
  | .imageStream .. => .imageStream
  | .buildConfig .. => .buildConfig

/-- The object's name (meta.Object GetName). -/
def KObject.objName : KObject → String
  | .deployment name .. => name
  | .daemonSet name .. => name
  | .replicationController name .. => name
  | .pod name .. => name
  | .service name .. => name
  | .pvc name .. => name
  | .ingress name .. => name
  | .route name .. => name
  | .deploymentConfig name .. => name
  | .imageStream name .. => name
  | .buildConfig name .. => name

/-- The object's label set. -/
def KObject.objLabels : KObject → List (String × String)
  | .deployment _ labels .. => labels
  | .daemonSet _ labels .. => labels
  | .replicationController _ labels .. => labels
  | .pod _ labels .. => labels
  | .service _ labels .. => labels
  | .pvc _ labels .. => labels
  | .ingress _ labels .. => labels
  | .route _ labels .. => labels
  | .deploymentConfig _ labels .. => labels
  | .imageStream _ labels .. => labels
  | .buildConfig _ labels .. => labels

/-- Is this object a network-exposure object (Service)? -/
def isServiceObj (o : KObject) : Bool :=
  match o with
  | .service .. => true
  | _ => false

/-- Is this object a storage claim? -/
def isPvcObj (o : KObject) : Bool :=
  match o with
  | .pvc .. => true
  | _ => false

/-- Is this object an ingress? -/
def isIngressObj (o : KObject) : Bool :=
  match o with
  | .ingress .. => true
  | _ => false

/-- Is this object a route? -/
def isRouteObj (o : KObject) : Bool :=
  match o with
  | .route .. => true
  | _ => false

/-- Is this object a workload controller (any platform kind)? -/
def isControllerObj (o : KObject) : Bool :=
  match o with
  | .deployment .. => true
  | .daemonSet .. => true
  | .replicationController .. => true
  | .deploymentConfig .. => true
  | _ => false

/-- Is this object a network-exposure, route or ingress object (the group the
ordering pass moves to the front)? -/
def isNetworkObj (o : KObject) : Bool :=
  match o with
  | .service .. => true
  | .route .. => true
  | .ingress .. => true
  | _ => false

/-! ### String splitting, mirroring Go strings.Split -/

/-- Splitting a character list at every occurrence of `c`, with the semantics
of Go `strings.Split` for a one-character separator: `splitChar c [] = [[]]`,
and the result always has `count c l + 1` groups. -/
def splitChar (c : Char) : List Char → List (List Char)
  | [] => [[]]
  | x :: xs =>
    if x = c then [] :: splitChar c xs
    else
      match splitChar c xs with
      | [] => [[x]]
      | g :: gs => (x :: g) :: gs

/-- The suffix of `l` strictly after the last occurrence of `c`; the whole list
when `c` does not occur. -/
def afterLast (c : Char) : List Char → List Char
  | [] => []
  | x :: xs => if c ∈ xs then afterLast c xs else if x = c then xs else x :: xs

/-- Replacing the first occurrence of a nonempty pattern, mirroring Go
`strings.Replace(s, old, new, 1)`. -/
def replaceFirst (pat rep : List Char) : List Char → List Char
  | [] => []
  | x :: xs =>
    if pat.isPrefixOf (x :: xs) then rep ++ (x :: xs).drop pat.length
    else x :: replaceFirst pat rep xs

/-- String version of `replaceFirst`. -/
def replaceFirstStr (s pat rep : String) : String :=
  (replaceFirst pat.toList rep.toList s.toList).asString

/-- `getImageTag` (openshift.go): extracts the tag from an image reference,
defaulting to "latest".  `i[len(i)-1]` is rendered as `getLastD` (the list is
never empty), and `p[1]` under `p.length = 2` is the last element. -/
def getImageTag (image : String) : String :=
  let i := splitChar '/' image.toList
  let imageAndTag := if 2 ≤ i.length then i.getLastD [] else image.toList
  let p := splitChar ':' imageAndTag
  if p.length = 2 then (p.getLastD []).asString else "latest"

/-! ### Object builders (kubernetes.go) -/

/-- `InitPod`: the bare Pod object for one service. -/
def InitPod (name : String) (service : ServiceConfig) : KObject :=
  KObject.pod name (ConfigLabels name) service.Image

/-- `InitRC`: the ReplicationController object. -/
def InitRC (name : String) (service : ServiceConfig) (replicas : Int) : KObject :=
  KObject.replicationController name (ConfigLabels name) (toInt32 replicas)
    service.Image

/-- `InitSvc`: the Service object skeleton (name, labels, selector; no ports). -/
def InitSvc (name : String) : KObject :=
  KObject.service name (ConfigLabels name) (ConfigLabels name) [] ""

/-- `InitD`: the Deployment object. -/
def InitD (name : String) (service : ServiceConfig) (replicas : Int) : KObject :=
  KObject.deployment name (ConfigLabels name) (toInt32 replicas) service.Image

/-- `InitDS`: the DaemonSet object. -/
def InitDS (name : String) (service : ServiceConfig) : KObject :=
  KObject.daemonSet name (ConfigLabels name) service.Image

/-- `initIngress`: the Ingress object; the host stays unset (empty) when the
expose value is the literal "true". -/
def initIngress (name : String) (service : ServiceConfig) (port : Int) : KObject :=
  KObject.ingress name (ConfigLabels name)
    (if service.ExposeService ≠ "true" then service.ExposeService else "")
    name port

/-- `CreatePVC`: the PersistentVolumeClaim object.  The only error path in the
source is `resource.ParseQuantity` applied to the constant "100Mi", which
always succeeds, so the result is modelled as total. -/
def CreatePVC (name : String) (mode : String) : KObject :=
  KObject.pvc name (ConfigLabels name)
    (if mode = "ro" then "ReadOnlyMany" else "ReadWriteOnce")

/-- `ConfigServicePorts`: one ServicePort per declared port, named by the
resolved host port (defaulting to the container port when the declared host
port is 0), with the protocol omitted when it is TCP. -/
def ConfigServicePorts (service : ServiceConfig) : List ServicePort :=
  service.Port.map fun port =>
    let hostPort := if port.HostPort = 0 then port.ContainerPort else port.HostPort
    { Name := toString hostPort
      Protocol := if port.Protocol = "TCP" then none else some port.Protocol
      Port := hostPort
      TargetPort := port.ContainerPort }

/-- A volume mount entry of a pod spec (api.VolumeMount). -/
structure VolumeMount where
  Name : String
  ReadOnly : Bool
  MountPath : String
  deriving DecidableEq, Repr

/-- A pod-spec volume (api.Volume), summarised by its source kind. -/
structure PodVolume where
  Name : String
  EmptyDir : Bool
  deriving DecidableEq, Repr

/-- The loop body of `ConfigVolumes`: volume mounts, pod volumes, and the
storage-claim objects (one per mount unless empty-volume mode is on or the
mount references another service's claim via `VFrom`). -/
def configVolumesGo (useEmptyVolumes : Bool) :
    List Vols → List VolumeMount × List PodVolume × List KObject
  | [] => ([], [], [])
  | volume :: rest =>
    let readonly := volume.Mode = "ro"
    let volumeName :=
      if volume.VolumeName = "" then
        if useEmptyVolumes then replaceFirstStr volume.PVCName ("claim") ("empty")
        else volume.PVCName
      else volume.VolumeName
    let tail := configVolumesGo useEmptyVolumes rest
    let pvcHere : List KObject :=
      if useEmptyVolumes then []
      else if volume.VFrom = "" then [CreatePVC volumeName volume.Mode]
      else []
    (⟨volumeName, readonly, volume.Container⟩ :: tail.1,
     ⟨volumeName, useEmptyVolumes⟩ :: tail.2.1,
     pvcHere ++ tail.2.2)

/-- `ConfigVolumes`: container volume configuration for one service.  The
source's error return only propagates the impossible `CreatePVC` failure, so
the result is modelled as total. -/
def ConfigVolumes (opt : ConvertOptions) (name : String) (service : ServiceConfig) :
    List VolumeMount × List PodVolume × List KObject :=
  configVolumesGo opt.EmptyVols service.Volumes

/-- `CreateKubernetesObjects`: the controller objects selected by the run
options (Deployment, DaemonSet, ReplicationController, in that order). -/
def CreateKubernetesObjects (name : String) (service : ServiceConfig)
    (opt : ConvertOptions) : List KObject :=
  let replica :=
    if opt.IsReplicaSetFlag || service.Replicas = 0 then opt.Replicas
    else service.Replicas
  (if opt.CreateD then [InitD name service replica] else []) ++
  (if opt.CreateDS then [InitDS name service] else []) ++
  (if opt.CreateRC then [InitRC name service replica] else [])

/-! ### Helpers modelled from the spec (k8sutils.go is not among the sources) -/

/-- Modelled from the spec: `PortsExist` (k8sutils.go, not among the sources):
whether the service declares at least one port. -/
def PortsExist (service : ServiceConfig) : Bool :=
  ! service.Port.isEmpty

/-- Modelled from the spec: `CreateService` (k8sutils.go, not among the
sources): the addressed exposure object, whose port entries are those produced
by `ConfigServicePorts`. -/
def CreateService (name : String) (service : ServiceConfig) : KObject :=
  KObject.service name (ConfigLabels name) (ConfigLabels name)
    (ConfigServicePorts service) ""

/-- Modelled from the spec: `CreateHeadlessService` (k8sutils.go, not among the
sources): the headless exposure object — selector only, no port entries. -/
def CreateHeadlessService (name : String) : KObject :=
  KObject.service name (ConfigLabels name) (ConfigLabels name) [] ("None")

/-- Modelled from the spec: `UpdateKubernetesObjects` (k8sutils.go, not among
the sources): loads the per-service configuration onto the generated objects
and appends the storage-claim objects produced by `ConfigVolumes` to the
service's object list.  (Environment, volume-mount and tmpfs data are placed
inside the pod templates, which this embedding does not track.) -/
def UpdateKubernetesObjects (opt : ConvertOptions) (name : String)
    (service : ServiceConfig) (objects : List KObject) : List KObject :=
  objects ++ (ConfigVolumes opt name service).2.2

/-- Modelled from the spec: `SortServicesFirst` (k8sutils.go, not among the
sources): the ordering pass — a stable partition of the object graph moving
network-exposure/route/ingress objects to the front. -/
def SortServicesFirst (objs : List KObject) : List KObject :=
  objs.filter isNetworkObj ++ objs.filter (fun o => ! isNetworkObj o)

/-- Lexicographic comparison of character lists (the order of Go string
comparison, used for reproducible iteration). -/
def lexLe : List Char → List Char → Bool
  | [], _ => true
  | _ :: _, [] => false
  | a :: as, b :: bs => if a = b then lexLe as bs else decide (a < b)

/-- Lexicographic comparison of strings. -/
def strLe (a b : String) : Bool := lexLe a.toList b.toList

/-- Modelled from the spec: `SortedKeys` (k8sutils.go, not among the sources):
service names in lexicographic order (a stable sort under `strLe`). -/
def SortedKeys (ko : KomposeObject) : List String :=
  List.insertionSort (fun a b => strLe a b) (ko.ServiceConfigs.map Prod.fst)

/-- Indexing the service model by name (Go map indexing yields the zero value
for an absent key; the transform only indexes with present keys). -/
def lookupService (ko : KomposeObject) (name : String) : ServiceConfig :=
  ((ko.ServiceConfigs.find? (fun p => p.1 = name)).map Prod.snd).getD {}

/-- Stable sort of an environment-variable list by name (transformer.EnvSort
with sort.Stable). -/
def sortEnvVars (l : List EnvVar) : List EnvVar :=
  List.insertionSort (fun a b => strLe a.Name b.Name) l

/-! ### External collaborators, modelled as oracles (spec section 6) -/

/-- The external capabilities the transform depends on: compose-file directory
resolution, docker build/push, git introspection, environment lookup.  Each is
out of scope per the spec and modelled as a fixed oracle for one run. -/
structure TransformOracles where
  composeFileDir : Except String String
  buildImage : String → String → Except String Unit
  pushImage : String → Except String Unit
  hasGitBinary : Bool
  gitCurrentBranch : String → Except String String
  gitCurrentRemoteURL : String → Except String String
  absBuildContext : String → Except String String
  getenv : String → String

/-! ### OpenShift object builders (openshift.go) -/

/-- `initImageStream`: the ImageStream object; the tag mapping is present
unless the service has a build context and the run is in build-config mode. -/
def initImageStream (name : String) (service : ServiceConfig)
    (opt : ConvertOptions) : KObject :=
  let tag := getImageTag service.Image
  let tags : Option (String × String) :=
    if service.Build ≠ "" || opt.Build ≠ "build-config" then
      some (tag, service.Image)
    else none
  KObject.imageStream name (ConfigLabels name) tags opt.InsecureRepository

/-- `initBuildConfig`: the BuildConfig object; fails when the build context
cannot be resolved against the repository root.  Build-argument values equal to
the sentinel "\x00" are substituted from the invoking environment, and the list
is stable-sorted by name.  The declared output target is
`name ++ ":" ++ getImageTag service.Image`. -/
def initBuildConfig (or : TransformOracles) (name : String)
    (service : ServiceConfig) (repo : String) (branch : String) :
    Except String KObject :=
  match or.absBuildContext service.Build with
  | .error e =>
    .error (name ++ "buildconfig cannot be created due to error in creating build context, getAbsBuildContext failed: " ++ e)
  | .ok contextDir =>
    let envList := sortEnvVars (service.BuildArgs.map fun p =>
      ⟨p.1, if p.2 = "\x00" then or.getenv p.1 else p.2⟩)
    .ok (KObject.buildConfig name (ConfigLabels name) repo branch contextDir
      service.Dockerfile envList (name ++ ":" ++ getImageTag service.Image))

/-- `initDeploymentConfig`: the DeploymentConfig object; its image-change
trigger references `name:tag` and the container name defaults to the service
name. -/
def initDeploymentConfig (name : String) (service : ServiceConfig)
    (replicas : Int) : KObject :=
  let tag := getImageTag service.Image
  let containerName :=
    if service.ContainerName ≠ "" then service.ContainerName else name
  KObject.deploymentConfig name (ConfigLabels name) (toInt32 replicas) tag
    containerName

/-- `initRoute`: the Route object; the host stays unset (empty) when the
expose value is the literal "true". -/
def initRoute (name : String) (service : ServiceConfig) (port : Int) : KObject :=
  KObject.route name (ConfigLabels name)
    (if service.ExposeService ≠ "true" then service.ExposeService else "")
    name port

/-! ### Platform transforms -/

/-- The first port entry's `Port` of an exposure object (`svc.Spec.Ports[0]`);
only evaluated under the `PortsExist` guard, where the list is nonempty. -/
def firstServicePort (svc : KObject) : Int :=
  match svc with
  | .service _ _ _ (p :: _) _ => p.Port
  | _ => 0

/-- The port entries of an exposure object (empty for any other kind). -/
def KObject.svcPorts : KObject → List ServicePort
  | .service _ _ _ ports _ => ports
  | _ => []

/-- The cluster IP of an exposure object ("None" marks a headless one). -/
def KObject.svcClusterIP : KObject → String
  | .service _ _ _ _ clusterIP => clusterIP
  | _ => ""

/-- The declared output target of a BuildConfig object. -/
def KObject.buildOutput : KObject → String
  | .buildConfig _ _ _ _ _ _ _ outputName => outputName
  | _ => ""

/-- Image-name defaulting: when no image key was given, the service name is
used as the image name. -/
def defaultImage (name : String) (s : ServiceConfig) : ServiceConfig :=
  if s.Image = "" then { s with Image := name } else s

/-- The exposure-object tail of the Kubernetes per-service emission: the
addressed Service plus an Ingress when exposed, or the headless Service. -/
def k8sServiceAndIngress (name : String) (service : ServiceConfig)
    (objects : List KObject) : List KObject :=
  if PortsExist service then
    let svc := CreateService name service
    objects ++ [svc] ++
      (if service.ExposeService ≠ "" then
        [initIngress name service (firstServicePort svc)]
      else [])
  else objects ++ [CreateHeadlessService name]

/-- The local build-then-push step of the Kubernetes transform: requires an
image name, resolves the compose file directory, builds, then pushes; each
failure aborts with a wrapped error. -/
def k8sBuildPush (opt : ConvertOptions) (or : TransformOracles) (name : String)
    (service : ServiceConfig) : Except String Unit :=
  if opt.Build = "local" && !opt.InputFiles.isEmpty && service.Build ≠ "" then
    if service.Image = "" then
      .error ("image key required within build parameters in order to build and push service " ++ name)
    else
      match or.composeFileDir with
      | .error e => .error e
      | .ok dir =>
        match or.buildImage name dir with
        | .error e =>
          .error ("Unable to build Docker image for service " ++ name ++ ": " ++ e)
        | .ok _ =>
          match or.pushImage name with
          | .error e =>
            .error ("Unable to push Docker image for service " ++ name ++ ": " ++ e)
          | .ok _ => .ok ()
  else .ok ()

/-- The local build-then-push step of the OpenShift transform.  Build and push
failures hit `log.Fatalf`, which terminates the process; since no object graph
is ever returned in that case, it is modelled as an aborting error. -/
def osBuildPush (opt : ConvertOptions) (or : TransformOracles) (name : String)
    (service : ServiceConfig) : Except String Unit :=
  if opt.Build = "local" && !opt.InputFiles.isEmpty && service.Build ≠ "" then
    if service.Image = "" then
      .error ("image key required within build parameters in order to build and push service " ++ name)
    else
      match or.composeFileDir with
      | .error e => .error e
      | .ok dir =>
        match or.buildImage name dir with
        | .error e =>
          .error ("Unable to build Docker container for service " ++ name ++ ": " ++ e)
        | .ok _ =>
          match or.pushImage name with
          | .error e =>
            .error ("Unable to push Docker image for service " ++ name ++ ": " ++ e)
          | .ok _ => .ok ()
  else .ok ()

/-- The per-service body of `Kubernetes.Transform`: build/push, image-name
defaulting, bare-pod versus controller/exposure/ingress emission, then
`UpdateKubernetesObjects`. -/
def transformK8sService (opt : ConvertOptions) (or : TransformOracles)
    (name : String) (service0 : ServiceConfig) : Except String (List KObject) :=
  match k8sBuildPush opt or name service0 with
  | .error e => .error e
  | .ok _ =>
    let service := defaultImage name service0
    if service.Restart = "no" || service.Restart = "on-failure" then
      if opt.IsDeploymentFlag || opt.IsDaemonSetFlag ||
          opt.IsReplicationControllerFlag then
        .error ("Controller object cannot be specified with restart on-failure")
      else
        .ok (UpdateKubernetesObjects opt name service [InitPod name service])
    else
      .ok (UpdateKubernetesObjects opt name service
        (k8sServiceAndIngress name service
          (CreateKubernetesObjects name service opt)))

/-- The service loop of `Kubernetes.Transform` over the sorted names. -/
def transformK8sGo (ko : KomposeObject) (opt : ConvertOptions)
    (or : TransformOracles) : List String → Except String (List KObject)
  | [] => .ok []
  | n :: rest =>
    match transformK8sService opt or n (lookupService ko n) with
    | .error e => .error e
    | .ok objs =>
      match transformK8sGo ko opt or rest with
      | .error e => .error e
      | .ok restObjs => .ok (objs ++ restObjs)

/-- `Kubernetes.Transform` before the final ordering pass. -/
def TransformK8sRaw (ko : KomposeObject) (opt : ConvertOptions)
    (or : TransformOracles) : Except String (List KObject) :=
  transformK8sGo ko opt or (SortedKeys ko)

/-- `Kubernetes.Transform`: the full object graph, exposure objects first. -/
def TransformK8s (ko : KomposeObject) (opt : ConvertOptions)
    (or : TransformOracles) : Except String (List KObject) :=
  (TransformK8sRaw ko opt or).map SortServicesFirst

/-- The exposure-object tail of the OpenShift per-service emission: the
addressed Service plus a Route when exposed, or the headless Service. -/
def osServiceAndRoute (name : String) (service : ServiceConfig)
    (objects : List KObject) : List KObject :=
  if PortsExist service then
    let svc := CreateService name service
    objects ++ [svc] ++
      (if service.ExposeService ≠ "" then
        [initRoute name service (firstServicePort svc)]
      else [])
  else objects ++ [CreateHeadlessService name]

/-- The tail of the OpenShift per-service emission: exposure objects followed
by `UpdateKubernetesObjects`. -/
def osFinishService (opt : ConvertOptions) (name : String)
    (service : ServiceConfig) (objects : List KObject) : List KObject :=
  UpdateKubernetesObjects opt name service (osServiceAndRoute name service objects)

/-- The replica count for one service: the explicit per-service count unless
it is zero or the run forces the default, in which case the global default. -/
def osReplica (opt : ConvertOptions) (s : ServiceConfig) : Int :=
  if opt.IsReplicaSetFlag || s.Replicas = 0 then opt.Replicas else s.Replicas

/-- The controller-side objects of the OpenShift per-service emission: the
generic controllers plus, when requested, the DeploymentConfig followed by
its ImageStream. -/
def osBaseObjects (opt : ConvertOptions) (name : String)
    (service : ServiceConfig) : List KObject :=
  CreateKubernetesObjects name service opt ++
    (if opt.CreateDeploymentConfig then
      [initDeploymentConfig name service (osReplica opt service),
       initImageStream name service opt]
    else [])

/-- The per-service body of `OpenShift.Transform`.  `buildRepo` and
`buildBranch` are the loop-carried source-repository detection results; the
returned pair is their value after this service.  A compose-file-directory
detection failure on the build-config path logs a warning and `continue`s,
so the service contributes no objects and the run proceeds. -/
def transformOSService (opt : ConvertOptions) (or : TransformOracles)
    (name : String) (service0 : ServiceConfig)
    (buildRepo buildBranch : String) :
    Except String (List KObject × String × String) :=
  match osBuildPush opt or name service0 with
  | .error e => .error e
  | .ok _ =>
    if (defaultImage name service0).Restart = "no" ||
        (defaultImage name service0).Restart = "on-failure" then
      if opt.IsDeploymentConfigFlag then
        .error ("Controller object cannot be specified with restart on-failure")
      else
        .ok (UpdateKubernetesObjects opt name (defaultImage name service0)
          [InitPod name (defaultImage name service0)], buildRepo, buildBranch)
    else
      if (defaultImage name service0).Build ≠ "" &&
          opt.Build = "build-config" then
        match or.composeFileDir with
        | .error _ => .ok ([], buildRepo, buildBranch)
        | .ok dir =>
          if !or.hasGitBinary && (buildRepo = "" || buildBranch = "") then
            .error ("Git is not installed! Please install Git to create buildconfig, else supply source repository and branch to use for build using --build-repo, --build-branch options respectively")
          else
            match
              (if buildBranch = "" then or.gitCurrentBranch dir
               else .ok buildBranch) with
            | .error e =>
              .error ("Buildconfig cannot be created because current git branch could not be detected: " ++ e)
            | .ok branch2 =>
              match
                (if opt.BuildRepo = "" then or.gitCurrentRemoteURL dir
                 else .ok buildRepo) with
              | .error e =>
                .error ("Buildconfig cannot be created because git remote origin repo could not be detected: " ++ e)
              | .ok repo2 =>
                match initBuildConfig or name (defaultImage name service0)
                    repo2 branch2 with
                | .error e => .error ("initBuildConfig failed: " ++ e)
                | .ok bc =>
                  .ok (osFinishService opt name (defaultImage name service0)
                    (osBaseObjects opt name (defaultImage name service0) ++ [bc]),
                    repo2, branch2)
      else
        .ok (osFinishService opt name (defaultImage name service0)
          (osBaseObjects opt name (defaultImage name service0)),
          buildRepo, buildBranch)

/-- The service loop of `OpenShift.Transform` over the sorted names, threading
the detected source repository and branch. -/
def transformOSGo (ko : KomposeObject) (opt : ConvertOptions)
    (or : TransformOracles) :
    List String → String → String → Except String (List KObject)
  | [], _, _ => .ok []
  | n :: rest, repo, branch =>
    match transformOSService opt or n (lookupService ko n) repo branch with
    | .error e => .error e
    | .ok (objs, repo2, branch2) =>
      match transformOSGo ko opt or rest repo2 branch2 with
      | .error e => .error e
      | .ok restObjs => .ok (objs ++ restObjs)

/-- `OpenShift.Transform` before the final ordering pass. -/
def TransformOSRaw (ko : KomposeObject) (opt : ConvertOptions)
    (or : TransformOracles) : Except String (List KObject) :=
  transformOSGo ko opt or (SortedKeys ko) opt.BuildRepo opt.BuildBranch

/-- `OpenShift.Transform`: the full object graph, exposure objects first. -/
def TransformOS (ko : KomposeObject) (opt : ConvertOptions)
    (or : TransformOracles) : Except String (List KObject) :=
  (TransformOSRaw ko opt or).map SortServicesFirst

/-! ### Deploy orchestrator (Kubernetes.Deploy, kubernetes.go) -/

/-- The control-plane creation capability (out of scope per the spec). -/
structure CreateIface where
  create : ObjKind → String → Except String Unit

/-- The kinds `Kubernetes.Deploy` dispatches on: its type switch has cases for
Deployment, Service, PersistentVolumeClaim, Ingress and Pod only; every other
kind falls through the switch silently. -/
def k8sDeployKind (k : ObjKind) : Bool :=
  match k with
  | .deployment => true
  | .service => true
  | .pvc => true
  | .ingress => true
  | .pod => true
  | _ => false

/-- The creation loop of `Kubernetes.Deploy`: for each object in order,
dispatch on its kind; the first creation error aborts the remaining loop.
Returns the trace of successfully created (kind, name) pairs and the first
error, if any. -/
def deployK8sGo (iface : CreateIface) :
    List KObject → List (ObjKind × String) × Option String
  | [] => ([], none)
  | obj :: rest =>
    if k8sDeployKind obj.kind then
      match iface.create obj.kind obj.objName with
      | .error e => ([], some e)
      | .ok _ =>
        ((obj.kind, obj.objName) :: (deployK8sGo iface rest).1,
         (deployK8sGo iface rest).2)
    else deployK8sGo iface rest

/-! ### Undeploy orchestrator (Kubernetes.Undeploy / OpenShift.Undeploy) -/

/-- A live object on the cluster, as the list capability reports it. -/
structure LiveObject where
  kind : ObjKind
  name : String
  labels : List (String × String)
  deriving DecidableEq, Repr

/-- Label lookup in a label set (a Go map, represented as an association
list with the first binding per key authoritative). -/
def lookupLabel (labels : List (String × String)) (k : String) : Option String :=
  (labels.find? (fun p => p.1 = k)).map Prod.snd

/-- Map equality of two label sets, mirroring `reflect.DeepEqual` on Go maps:
the same keys bound to the same values. -/
def labelsEq (a b : List (String × String)) : Bool :=
  a.all (fun p => lookupLabel b p.1 = lookupLabel a p.1) &&
  b.all (fun p => lookupLabel a p.1 = lookupLabel b p.1)

/-- Whether a live object's label set is matched by the single-entry label
selector `{Selector: name}` (selector matching is satisfied by any superset). -/
def selectorMatches (name : String) (labels : List (String × String)) : Bool :=
  lookupLabel labels Selector = some name

/-- The control-plane list/delete capability (out of scope per the spec).
`list` takes the object kind and the selector's service name; `delete` takes
the kind and the graph object's name and covers both reaper-based and direct
deletion, whose failures are handled identically. -/
structure ClusterIface where
  list : ObjKind → String → Except String (List LiveObject)
  delete : ObjKind → String → Except String Unit

/-- The inner item loop of one Undeploy case: delete (by the graph object's
name) for every listed object whose label set is exactly `{Selector: name}`;
the first delete error is recorded and breaks this item loop. -/
def undeployItems (iface : ClusterIface) (kind : ObjKind) (name : String) :
    List LiveObject → List String × List LiveObject
  | [] => ([], [])
  | l :: rest =>
    if labelsEq l.labels (ConfigLabels name) then
      match iface.delete kind name with
      | .error e => ([e], [])
      | .ok _ =>
        ((undeployItems iface kind name rest).1,
         l :: (undeployItems iface kind name rest).2)
    else undeployItems iface kind name rest

/-- One Undeploy case body: list live objects of the kind with the single-entry
selector, then run the item loop; a list error is recorded and ends the case.
(The Kubernetes Pod case lacks the `break` after a list error; since the
zero-value list has no items, its behaviour coincides with this model.) -/
def undeployStep (iface : ClusterIface) (kind : ObjKind) (name : String) :
    List String × List LiveObject :=
  match iface.list kind name with
  | .error e => ([e], [])
  | .ok items => undeployItems iface kind name items

/-- The kinds the `Kubernetes.Undeploy` type switch handles. -/
def k8sUndeployKind (k : ObjKind) : Bool :=
  match k with
  | .deployment => true
  | .service => true
  | .pvc => true
  | .ingress => true
  | .pod => true
  | _ => false

/-- The kinds the `OpenShift.Undeploy` type switch handles. -/
def osUndeployKind (k : ObjKind) : Bool :=
  match k with
  | .imageStream => true
  | .buildConfig => true
  | .deploymentConfig => true
  | .service => true
  | .pvc => true
  | .route => true
  | .pod => true
  | _ => false

/-- The outer object loop of Undeploy: every graph object is attempted, errors
are collected run-wide, and no failure stops the loop. -/
def undeployLoop (iface : ClusterIface) (covered : ObjKind → Bool) :
    List (ObjKind × String) → List String × List LiveObject
  | [] => ([], [])
  | e :: rest =>
    ((if covered e.1 then undeployStep iface e.1 e.2 else ([], [])).1 ++
       (undeployLoop iface covered rest).1,
     (if covered e.1 then undeployStep iface e.1 e.2 else ([], [])).2 ++
       (undeployLoop iface covered rest).2)

/-- `Kubernetes.Undeploy`: recompute the object graph by re-running the
transform (a transform error is returned as a one-element error list), then
run the object loop.  Returns the collected error list and, in this model,
also the listed objects that were actually deleted. -/
def UndeployK8s (ko : KomposeObject) (opt : ConvertOptions)
    (or : TransformOracles) (iface : ClusterIface) :
    List String × List LiveObject :=
  match TransformK8s ko opt or with
  | .error e => ([e], [])
  | .ok objs =>
    undeployLoop iface k8sUndeployKind (objs.map fun o => (o.kind, o.objName))

/-- `OpenShift.Undeploy`, analogously. -/
def UndeployOS (ko : KomposeObject) (opt : ConvertOptions)
    (or : TransformOracles) (iface : ClusterIface) :
    List String × List LiveObject :=
  match TransformOS ko opt or with
  | .error e => ([e], [])
  | .ok objs =>
    undeployLoop iface osUndeployKind (objs.map fun o => (o.kind, o.objName))

/-- The live objects of one kind matching the single-entry selector: the
semantics of the list capability against a concrete cluster state. -/
def listLive (cluster : List LiveObject) (kind : ObjKind) (name : String) :
    List LiveObject :=
  cluster.filter (fun l => l.kind = kind && selectorMatches name l.labels)

/-- A concrete cluster interface with selector-respecting listing and
always-succeeding deletion. -/
def clusterIface (cluster : List LiveObject) : ClusterIface where
  list := fun kind name => .ok (listLive cluster kind name)
  delete := fun _ _ => .ok ()

/-! ### Concrete data used to instantiate the theorems -/

/-- A happy-path oracle set: every external capability succeeds. -/
def trivOracles : TransformOracles where
  composeFileDir := .ok ("")
  buildImage := fun _ _ => .ok ()
  pushImage := fun _ => .ok ()
  hasGitBinary := true
  gitCurrentBranch := fun _ => .ok ("master")
  gitCurrentRemoteURL := fun _ => .ok ("origin")
  absBuildContext := fun _ => .ok ("")
  getenv := fun _ => ""

/-- Oracles whose compose-file-directory detection fails. -/
def noDirOracles : TransformOracles :=
  { trivOracles with composeFileDir := .error ("no compose dir") }

/-- A two-service model: "a" declares a build context, "b" declares a port. -/
def twoSvcModel : KomposeObject where
  ServiceConfigs :=
    [("a", { Image := "img", Build := "ctx" }),
     ("b", { Image := "i2", Port := [{ ContainerPort := 81 }] })]

/-- Oracles whose docker build capability always fails. -/
def failBuildOracles : TransformOracles :=
  { trivOracles with buildImage := fun _ _ => .error ("boom") }

/-- A cluster interface that lists no live objects. -/
def emptyClusterIface : ClusterIface where
  list := fun _ _ => .ok []
  delete := fun _ _ => .ok ()

/-- A live Service whose labels include the selector entry for "web" among
others: matched by the selector, but not label-identical. -/
def fatLive : LiveObject :=
  { kind := .service, name := "x",
    labels := [("service", "web"), ("app", "x")] }

/-- The resolved host port of one declared port mapping: the declared host
port, defaulting to the container port when the declared host port is 0. -/
def resolvedPort (p : PortMapping) : Int :=
  if p.HostPort = 0 then p.ContainerPort else p.HostPort

/-- A one-port web service used to instantiate the theorems. -/
def webSvc : ServiceConfig :=
  { Image := "nginx", Port := [{ ContainerPort := 80 }] }

/-- The objects the Kubernetes transform emits for `webSvc`. -/
def webObjs : List KObject :=
  [KObject.service ("web") (ConfigLabels ("web")) (ConfigLabels ("web"))
    [{ Name := "80", Protocol := none, Port := 80, TargetPort := 80 }] ("")]

/-- A bare-pod service (restart "on-failure") with one volume mount. -/
def dbSvc : ServiceConfig :=
  { Image := "pg", Restart := "on-failure",
    Volumes := [{ Container := "/var/lib", PVCName := "db-claim" }] }

/-- The objects the Kubernetes transform emits for `dbSvc`: the bare Pod and
the storage claim of its volume mount. -/
def dbObjs : List KObject :=
  [KObject.pod ("db") (ConfigLabels ("db")) ("pg"),
   KObject.pvc ("db-claim") (ConfigLabels ("db-claim")) ("ReadWriteOnce")]

/-- A model holding the single service `webSvc` under the name "web". -/
def oneModel : KomposeObject := { ServiceConfigs := [("web", webSvc)] }

/-- A model holding the single bare-pod service `dbSvc` under the name "db". -/
def podModel : KomposeObject := { ServiceConfigs := [("db", dbSvc)] }

/-- An exposed service with no declared ports. -/
def exSvc : ServiceConfig := { Image := "img", ExposeService := "ex.com" }

/-- The objects the Kubernetes transform emits for `exSvc`: only the headless
exposure object. -/
def exObjs : List KObject :=
  [KObject.service ("x") (ConfigLabels ("x")) (ConfigLabels ("x")) [] ("None")]

/-- An exposed one-port service with expose value "true". -/
def wexSvc : ServiceConfig :=
  { Image := "nginx", Port := [{ ContainerPort := 80 }], ExposeService := "true" }

/-- An exposed one-port service that also declares a build context. -/
def x2Svc : ServiceConfig :=
  { Image := "img", Build := "ctx", ExposeService := "ex.com",
    Port := [{ ContainerPort := 80 }] }

/-- The objects the Kubernetes transform emits for `wexSvc`: the addressed
exposure object and the ingress with no fixed host. -/
def wexObjs : List KObject :=
  [KObject.service ("web") (ConfigLabels ("web")) (ConfigLabels ("web"))
    [{ Name := "80", Protocol := none, Port := 80, TargetPort := 80 }] (""),
   KObject.ingress ("web") (ConfigLabels ("web")) ("") ("web") 80]

/-! ## Theorems -/

/-! ### Facts about `splitChar` and `afterLast` (image-tag parsing) -/

theorem splitChar_ne_nil (c : Char) (l : List Char) : splitChar c l ≠ [] := by
  induction l with
  | nil => simp [splitChar]
  | cons x xs ih =>
    simp only [splitChar]
    split
    · simp
    · cases h : splitChar c xs with
      | nil => simp
      | cons g gs => simp [h]

theorem length_splitChar (c : Char) (l : List Char) :
    (splitChar c l).length = l.count c + 1 := by
  induction l with
  | nil => simp [splitChar]
  | cons x xs ih =>
    simp only [splitChar]
    split
    · rename_i hx
      subst hx
      simp [List.count_cons, ih]
    · rename_i hx
      cases h : splitChar c xs with
      | nil => exact absurd h (splitChar_ne_nil c xs)
      | cons g gs =>
        rw [h] at ih
        have hcx : ¬ c = x := fun he => hx he.symm
        simp only [List.length_cons] at ih ⊢
        simp [List.count_cons, hcx]
        omega

theorem splitChar_of_not_mem (c : Char) (l : List Char) (h : c ∉ l) :
    splitChar c l = [l] := by
  induction l with
  | nil => rfl
  | cons x xs ih =>
    have hx : ¬ x = c := fun he => h (he ▸ List.mem_cons_self x xs)
    have hxs : c ∉ xs := fun hm => h (List.mem_cons_of_mem _ hm)
    simp only [splitChar, if_neg hx, ih hxs]

theorem getLastD_irrel {α : Type} (l : List α) (h : l ≠ []) (a b : α) :
    l.getLastD a = l.getLastD b := by
  cases l with
  | nil => exact absurd rfl h
  | cons y ys => rw [List.getLastD_cons, List.getLastD_cons]

theorem afterLast_of_not_mem (c : Char) (l : List Char) (h : c ∉ l) :
    afterLast c l = l := by
  cases l with
  | nil => rfl
  | cons x xs =>
    have hx : ¬ x = c := fun he => h (he ▸ List.mem_cons_self x xs)
    have hxs : c ∉ xs := fun hm => h (List.mem_cons_of_mem _ hm)
    simp [afterLast, hxs, hx]

theorem getLastD_splitChar (c : Char) (l : List Char) :
    (splitChar c l).getLastD [] = afterLast c l := by
  induction l with
  | nil => rfl
  | cons x xs ih =>
    simp only [splitChar, afterLast]
    by_cases hmem : c ∈ xs
    · rw [if_pos hmem]
      by_cases hx : x = c
      · rw [if_pos hx]
        cases h : splitChar c xs with
        | nil => exact absurd h (splitChar_ne_nil c xs)
        | cons g gs =>
          rw [h] at ih
          rw [List.getLastD_cons, ← ih]
      · rw [if_neg hx]
        cases h : splitChar c xs with
        | nil => exact absurd h (splitChar_ne_nil c xs)
        | cons g gs =>
          have hgs : gs ≠ [] := by
            intro hnil
            have hlen := length_splitChar c xs
            rw [h, hnil] at hlen
            simp at hlen
            have := List.count_pos_iff.mpr hmem
            omega
          rw [h] at ih
          rw [List.getLastD_cons, getLastD_irrel gs hgs (x :: g) g,
            ← List.getLastD_cons [] g gs, ih]
    · rw [if_neg hmem]
      by_cases hx : x = c
      · rw [if_pos hx, splitChar_of_not_mem c xs hmem]
        simp [hx, List.getLastD_cons]
      · rw [if_neg hx, splitChar_of_not_mem c xs hmem]
        simp [hx, List.getLastD_cons]

/-! ### Facts about image-name defaulting and the generated object lists -/

theorem defaultImage_Restart (name : String) (s : ServiceConfig) :
    (defaultImage name s).Restart = s.Restart := by
  unfold defaultImage; split <;> rfl

theorem defaultImage_Port (name : String) (s : ServiceConfig) :
    (defaultImage name s).Port = s.Port := by
  unfold defaultImage; split <;> rfl

theorem defaultImage_Expose (name : String) (s : ServiceConfig) :
    (defaultImage name s).ExposeService = s.ExposeService := by
  unfold defaultImage; split <;> rfl

theorem defaultImage_Volumes (name : String) (s : ServiceConfig) :
    (defaultImage name s).Volumes = s.Volumes := by
  unfold defaultImage; split <;> rfl

theorem defaultImage_Build (name : String) (s : ServiceConfig) :
    (defaultImage name s).Build = s.Build := by
  unfold defaultImage; split <;> rfl

theorem filter_eq_nil_of_all_false {p : KObject → Bool} {l : List KObject}
    (h : ∀ o ∈ l, p o = false) : l.filter p = [] := by
  induction l with
  | nil => rfl
  | cons x xs ih =>
    have hx := h x (List.mem_cons_self x xs)
    rw [List.filter_cons, if_neg (by simp [hx])]
    exact ih fun o ho => h o (List.mem_cons_of_mem _ ho)

theorem pvc_kind_facts (o : KObject) (h : isPvcObj o = true) :
    isNetworkObj o = false ∧ isServiceObj o = false ∧ isIngressObj o = false ∧
      isRouteObj o = false ∧ isControllerObj o = false := by
  cases o <;> simp [isPvcObj] at h <;>
    simp [isNetworkObj, isServiceObj, isIngressObj, isRouteObj, isControllerObj]

theorem controller_kind_facts (o : KObject) (h : isControllerObj o = true) :
    isNetworkObj o = false ∧ isServiceObj o = false ∧ isIngressObj o = false ∧
      isRouteObj o = false ∧ isPvcObj o = false := by
  cases o <;> simp [isControllerObj] at h <;>
    simp [isNetworkObj, isServiceObj, isIngressObj, isRouteObj, isPvcObj]

theorem CKO_all_controller (name : String) (s : ServiceConfig)
    (opt : ConvertOptions) :
    ∀ o ∈ CreateKubernetesObjects name s opt, isControllerObj o = true := by
  intro o ho
  unfold CreateKubernetesObjects at ho
  simp only [List.mem_append] at ho
  rcases ho with (h | h) | h <;>
    (split at h <;> simp at h) <;> (subst h; rfl)

theorem configVolumes_all_pvc (useE : Bool) (vols : List Vols) :
    ∀ o ∈ (configVolumesGo useE vols).2.2, isPvcObj o = true := by
  induction vols with
  | nil => intro o ho; simp [configVolumesGo] at ho
  | cons v rest ih =>
    intro o ho
    simp only [configVolumesGo] at ho
    rcases List.mem_append.mp ho with h | h
    · split at h
      · simp at h
      · split at h
        · simp at h
          subst h
          rfl
        · simp at h
    · exact ih o h

theorem updateObjects_filter (opt : ConvertOptions) (name : String)
    (service : ServiceConfig) (objects : List KObject) (p : KObject → Bool)
    (hp : ∀ o, isPvcObj o = true → p o = false) :
    (UpdateKubernetesObjects opt name service objects).filter p =
      objects.filter p := by
  unfold UpdateKubernetesObjects ConfigVolumes
  rw [List.filter_append,
    filter_eq_nil_of_all_false
      (fun o ho => hp o (configVolumes_all_pvc opt.EmptyVols service.Volumes o ho)),
    List.append_nil]

/-! ### Shapes of the per-service transform results -/

theorem transformK8sService_ok_shape (opt : ConvertOptions)
    (or : TransformOracles) (name : String) (s : ServiceConfig)
    (objs : List KObject)
    (hr1 : s.Restart ≠ "no") (hr2 : s.Restart ≠ "on-failure")
    (h : transformK8sService opt or name s = .ok objs) :
    objs = UpdateKubernetesObjects opt name (defaultImage name s)
      (k8sServiceAndIngress name (defaultImage name s)
        (CreateKubernetesObjects name (defaultImage name s) opt)) := by
  unfold transformK8sService at h
  split at h
  · exact absurd h (by simp)
  · rw [if_neg (by simp [defaultImage_Restart, hr1, hr2])] at h
    simp only [Except.ok.injEq] at h
    exact h.symm

theorem transformK8sService_ok_pod (opt : ConvertOptions)
    (or : TransformOracles) (name : String) (s : ServiceConfig)
    (objs : List KObject)
    (hr : s.Restart = "no" ∨ s.Restart = "on-failure")
    (hf1 : opt.IsDeploymentFlag = false) (hf2 : opt.IsDaemonSetFlag = false)
    (hf3 : opt.IsReplicationControllerFlag = false)
    (h : transformK8sService opt or name s = .ok objs) :
    objs = UpdateKubernetesObjects opt name (defaultImage name s)
      [InitPod name (defaultImage name s)] := by
  unfold transformK8sService at h
  split at h
  · exact absurd h (by simp)
  · rw [if_pos (by rcases hr with hr | hr <;> simp [defaultImage_Restart, hr]),
      if_neg (by simp [hf1, hf2, hf3])] at h
    simp only [Except.ok.injEq] at h
    exact h.symm

theorem transformOSService_ok_pod (opt : ConvertOptions)
    (or : TransformOracles) (name : String) (s : ServiceConfig)
    (repo branch : String) (out : List KObject × String × String)
    (hr : s.Restart = "no" ∨ s.Restart = "on-failure")
    (hf : opt.IsDeploymentConfigFlag = false)
    (h : transformOSService opt or name s repo branch = .ok out) :
    out = (UpdateKubernetesObjects opt name (defaultImage name s)
      [InitPod name (defaultImage name s)], repo, branch) := by
  unfold transformOSService at h
  split at h
  · exact absurd h (by simp)
  · rw [if_pos (by rcases hr with hr | hr <;> simp [defaultImage_Restart, hr]),
      if_neg (by simp [hf])] at h
    simp only [Except.ok.injEq] at h
    exact h.symm

theorem initBuildConfig_ok_kind (or : TransformOracles) (name : String)
    (s : ServiceConfig) (repo branch : String) (bc : KObject)
    (h : initBuildConfig or name s repo branch = .ok bc) :
    isNetworkObj bc = false ∧ isPvcObj bc = false := by
  unfold initBuildConfig at h
  split at h
  · exact absurd h (by simp)
  · simp only [Except.ok.injEq] at h
    rw [← h]
    exact ⟨rfl, rfl⟩

theorem osBaseObjects_facts (opt : ConvertOptions) (name : String)
    (s : ServiceConfig) :
    ∀ o ∈ osBaseObjects opt name s,
      isNetworkObj o = false ∧ isPvcObj o = false := by
  intro o ho
  unfold osBaseObjects at ho
  rcases List.mem_append.mp ho with hm | hm
  · have hc := CKO_all_controller name s opt o hm
    exact ⟨(controller_kind_facts o hc).1, (controller_kind_facts o hc).2.2.2.2⟩
  · split at hm
    · simp only [List.mem_cons, List.not_mem_nil, or_false] at hm
      rcases hm with hm | hm <;> (rw [hm]; exact ⟨rfl, rfl⟩)
    · simp at hm

theorem transformOSService_ok_normal (opt : ConvertOptions)
    (or : TransformOracles) (name : String) (s : ServiceConfig)
    (repo branch : String) (objs : List KObject) (st : String × String)
    (hr1 : s.Restart ≠ "no") (hr2 : s.Restart ≠ "on-failure")
    (hbc : s.Build = "" ∨ opt.Build ≠ "build-config" ∨
      ∃ d, or.composeFileDir = .ok d)
    (h : transformOSService opt or name s repo branch = .ok (objs, st)) :
    ∃ base, (∀ o ∈ base, isNetworkObj o = false ∧ isPvcObj o = false) ∧
      objs = UpdateKubernetesObjects opt name (defaultImage name s)
        (osServiceAndRoute name (defaultImage name s) base) := by
  unfold transformOSService at h
  split at h
  · exact absurd h (by simp)
  · rw [if_neg (by simp [defaultImage_Restart, hr1, hr2])] at h
    split at h
    · rename_i hcond
      split at h
      · rename_i e hdir
        exfalso
        rcases hbc with hb | hb | ⟨d, hd⟩
        · simp [defaultImage_Build, hb] at hcond
        · simp [hb] at hcond
        · rw [hd] at hdir
          exact absurd hdir (by simp)
      · split at h
        · exact absurd h (by simp)
        · split at h
          · exact absurd h (by simp)
          · split at h
            · exact absurd h (by simp)
            · split at h
              · exact absurd h (by simp)
              · rename_i bc hinit
                simp only [Except.ok.injEq, Prod.mk.injEq] at h
                refine ⟨osBaseObjects opt name (defaultImage name s) ++ [bc],
                  ?_, ?_⟩
                · intro o ho
                  rcases List.mem_append.mp ho with hm | hm
                  · exact osBaseObjects_facts opt name (defaultImage name s) o hm
                  · simp at hm
                    rw [hm]
                    exact initBuildConfig_ok_kind _ _ _ _ _ _ hinit
                · rw [← h.1]
                  unfold osFinishService
                  rfl
    · simp only [Except.ok.injEq, Prod.mk.injEq] at h
      refine ⟨osBaseObjects opt name (defaultImage name s),
        osBaseObjects_facts opt name (defaultImage name s), ?_⟩
      rw [← h.1]
      unfold osFinishService
      rfl

theorem ConfigServicePorts_defaultImage (name : String) (s : ServiceConfig) :
    ConfigServicePorts (defaultImage name s) = ConfigServicePorts s := by
  unfold ConfigServicePorts
  rw [defaultImage_Port]

theorem PortsExist_defaultImage (name : String) (s : ServiceConfig) :
    PortsExist (defaultImage name s) = PortsExist s := by
  unfold PortsExist
  rw [defaultImage_Port]

theorem serviceAndIngress_filter_service (name : String)
    (service : ServiceConfig) (base : List KObject)
    (hbase : ∀ o ∈ base, isServiceObj o = false) :
    (k8sServiceAndIngress name service base).filter isServiceObj =
      if PortsExist service then [CreateService name service]
      else [CreateHeadlessService name] := by
  unfold k8sServiceAndIngress
  split <;> rename_i hp
  · simp only [List.filter_append, filter_eq_nil_of_all_false hbase,
      List.nil_append]
    split <;> rfl
  · simp only [List.filter_append, filter_eq_nil_of_all_false hbase,
      List.nil_append]
    rfl

theorem serviceAndRoute_filter_service (name : String)
    (service : ServiceConfig) (base : List KObject)
    (hbase : ∀ o ∈ base, isServiceObj o = false) :
    (osServiceAndRoute name service base).filter isServiceObj =
      if PortsExist service then [CreateService name service]
      else [CreateHeadlessService name] := by
  unfold osServiceAndRoute
  split <;> rename_i hp
  · simp only [List.filter_append, filter_eq_nil_of_all_false hbase,
      List.nil_append]
    split <;> rfl
  · simp only [List.filter_append, filter_eq_nil_of_all_false hbase,
      List.nil_append]
    rfl

theorem serviceAndIngress_filter_ingress (name : String)
    (service : ServiceConfig) (base : List KObject)
    (hbase : ∀ o ∈ base, isIngressObj o = false) :
    (k8sServiceAndIngress name service base).filter isIngressObj =
      if PortsExist service && service.ExposeService ≠ "" then
        [initIngress name service (firstServicePort (CreateService name service))]
      else [] := by
  unfold k8sServiceAndIngress
  split <;> rename_i hp
  · by_cases hx : service.ExposeService = ""
    · simp [List.filter_append, filter_eq_nil_of_all_false hbase, hx, hp,
        CreateService, isIngressObj]
    · simp [List.filter_append, filter_eq_nil_of_all_false hbase, hx, hp,
        CreateService, initIngress, isIngressObj]
  · rw [Bool.not_eq_true] at hp
    simp [List.filter_append, filter_eq_nil_of_all_false hbase, hp,
      CreateHeadlessService, isIngressObj]

theorem serviceAndRoute_filter_route (name : String)
    (service : ServiceConfig) (base : List KObject)
    (hbase : ∀ o ∈ base, isRouteObj o = false) :
    (osServiceAndRoute name service base).filter isRouteObj =
      if PortsExist service && service.ExposeService ≠ "" then
        [initRoute name service (firstServicePort (CreateService name service))]
      else [] := by
  unfold osServiceAndRoute
  split <;> rename_i hp
  · by_cases hx : service.ExposeService = ""
    · simp [List.filter_append, filter_eq_nil_of_all_false hbase, hx, hp,
        CreateService, isRouteObj]
    · simp [List.filter_append, filter_eq_nil_of_all_false hbase, hx, hp,
        CreateService, initRoute, isRouteObj]
  · rw [Bool.not_eq_true] at hp
    simp [List.filter_append, filter_eq_nil_of_all_false hbase, hp,
      CreateHeadlessService, isRouteObj]

theorem firstServicePort_CreateService (name : String) (service : ServiceConfig)
    (p : PortMapping) (rest : List PortMapping) (hp : service.Port = p :: rest) :
    firstServicePort (CreateService name service) = resolvedPort p := by
  unfold CreateService firstServicePort ConfigServicePorts
  rw [hp]
  rfl

/-- C1: for a service whose restart policy is neither "no" nor "on-failure",
the Kubernetes transform emits exactly one exposure object (Service) for it:
headless with no port entries when the service declares no ports, and
otherwise an addressed one whose port list has exactly one entry per declared
port, each entry named by the resolved host port (the declared host port,
defaulting to the container port when it is 0), with the protocol field
omitted when it is TCP. -/
theorem c1_exposure_object (opt : ConvertOptions) (or : TransformOracles)
    (name : String) (s : ServiceConfig) (objs : List KObject)
    (hr1 : s.Restart ≠ "no") (hr2 : s.Restart ≠ "on-failure")
    (h : transformK8sService opt or name s = .ok objs) :
    (s.Port.isEmpty = true →
      objs.filter isServiceObj = [CreateHeadlessService name] ∧
      (CreateHeadlessService name).svcPorts = [] ∧
      (CreateHeadlessService name).svcClusterIP = "None") ∧
    (s.Port.isEmpty = false →
      objs.filter isServiceObj = [CreateService name (defaultImage name s)] ∧
      (CreateService name (defaultImage name s)).svcPorts =
        ConfigServicePorts s) ∧
    ((ConfigServicePorts s).length = s.Port.length ∧
      ∀ (i : Nat) (hi : i < s.Port.length)
        (hi2 : i < (ConfigServicePorts s).length),
        ((ConfigServicePorts s).get ⟨i, hi2⟩).Name =
          toString (resolvedPort (s.Port.get ⟨i, hi⟩)) ∧
        ((ConfigServicePorts s).get ⟨i, hi2⟩).Port =
          resolvedPort (s.Port.get ⟨i, hi⟩) ∧
        ((ConfigServicePorts s).get ⟨i, hi2⟩).TargetPort =
          (s.Port.get ⟨i, hi⟩).ContainerPort ∧
        ((ConfigServicePorts s).get ⟨i, hi2⟩).Protocol =
          (if (s.Port.get ⟨i, hi⟩).Protocol = "TCP" then none
           else some (s.Port.get ⟨i, hi⟩).Protocol)) := by
  have hshape := transformK8sService_ok_shape opt or name s objs hr1 hr2 h
  have hfil : objs.filter isServiceObj =
      if PortsExist (defaultImage name s) then
        [CreateService name (defaultImage name s)]
      else [CreateHeadlessService name] := by
    rw [hshape,
      updateObjects_filter _ _ _ _ _ (fun o hp => (pvc_kind_facts o hp).2.1),
      serviceAndIngress_filter_service _ _ _
        (fun o hm =>
          (controller_kind_facts o (CKO_all_controller _ _ _ o hm)).2.1)]
  refine ⟨?_, ?_, ?_, ?_⟩
  · intro hempty
    exact ⟨by rw [hfil, PortsExist_defaultImage,
      if_neg (by simp [PortsExist, hempty])], rfl, rfl⟩
  · intro hne
    refine ⟨by rw [hfil, PortsExist_defaultImage,
      if_pos (by simp [PortsExist, hne])], ?_⟩
    exact ConfigServicePorts_defaultImage name s
  · simp [ConfigServicePorts]
  · intro i hi hi2
    simp [ConfigServicePorts, List.get_eq_getElem, List.getElem_map,
      resolvedPort]

/-- Closed instance of `c1_exposure_object` at the one-port web service. -/
theorem c1_exposure_object_witness :
    webSvc.Restart ≠ "no" ∧ webSvc.Restart ≠ "on-failure" ∧
    transformK8sService {} trivOracles ("web") webSvc = .ok webObjs ∧
    (webSvc.Port.isEmpty = false →
      webObjs.filter isServiceObj =
        [CreateService ("web") (defaultImage ("web") webSvc)] ∧
      (CreateService ("web") (defaultImage ("web") webSvc)).svcPorts =
        ConfigServicePorts webSvc) :=
  ⟨by decide, by decide, rfl,
    (c1_exposure_object {} trivOracles ("web") webSvc webObjs (by decide)
      (by decide) rfl).2.1⟩

/-- C2 counterexample: a service with restart policy "on-failure", no forced
controller kind, and one volume mount is emitted as TWO objects — the bare Pod
plus the storage claim of its mount — so the object graph for it does not
consist of exactly one object. -/
theorem c2_counterexample :
    dbSvc.Restart = "on-failure" ∧
    transformK8sService {} trivOracles ("db") dbSvc = .ok dbObjs ∧
    (dbObjs.length = 1 → False) :=
  ⟨rfl, rfl, by decide⟩

/-- C2 (amended): for every service with restart policy "no" or "on-failure"
and no forced controller kind, both transforms emit for that service a bare
Pod plus only the storage-claim objects generated for its volume mounts:
filtering the claims out leaves exactly the Pod, and no controller, exposure
(Service), route or ingress object is emitted for it. -/
theorem c2_bare_pod_amended (opt : ConvertOptions) (or : TransformOracles)
    (name : String) (s : ServiceConfig)
    (hr : s.Restart = "no" ∨ s.Restart = "on-failure") :
    (∀ objs, opt.IsDeploymentFlag = false → opt.IsDaemonSetFlag = false →
      opt.IsReplicationControllerFlag = false →
      transformK8sService opt or name s = .ok objs →
      objs.filter (fun o => ! isPvcObj o) =
        [InitPod name (defaultImage name s)] ∧
      objs.filter isControllerObj = [] ∧ objs.filter isNetworkObj = []) ∧
    (∀ out repo branch, opt.IsDeploymentConfigFlag = false →
      transformOSService opt or name s repo branch = .ok out →
      out.1.filter (fun o => ! isPvcObj o) =
        [InitPod name (defaultImage name s)] ∧
      out.1.filter isControllerObj = [] ∧ out.1.filter isNetworkObj = []) := by
  constructor
  · intro objs hf1 hf2 hf3 h
    have hshape := transformK8sService_ok_pod opt or name s objs hr hf1 hf2 hf3 h
    refine ⟨?_, ?_, ?_⟩
    · rw [hshape, updateObjects_filter _ _ _ _ _ (fun o hp => by simp [hp])]
      rfl
    · rw [hshape, updateObjects_filter _ _ _ _ _
        (fun o hp => (pvc_kind_facts o hp).2.2.2.2)]
      rfl
    · rw [hshape, updateObjects_filter _ _ _ _ _
        (fun o hp => (pvc_kind_facts o hp).1)]
      rfl
  · intro out repo branch hf h
    have hshape := transformOSService_ok_pod opt or name s repo branch out hr hf h
    have h1 : out.1 = UpdateKubernetesObjects opt name (defaultImage name s)
        [InitPod name (defaultImage name s)] := by rw [hshape]
    refine ⟨?_, ?_, ?_⟩
    · rw [h1, updateObjects_filter _ _ _ _ _ (fun o hp => by simp [hp])]
      rfl
    · rw [h1, updateObjects_filter _ _ _ _ _
        (fun o hp => (pvc_kind_facts o hp).2.2.2.2)]
      rfl
    · rw [h1, updateObjects_filter _ _ _ _ _
        (fun o hp => (pvc_kind_facts o hp).1)]
      rfl

/-- Closed instance of `c2_bare_pod_amended` at the bare-pod db service. -/
theorem c2_bare_pod_amended_witness :
    (dbSvc.Restart = "no" ∨ dbSvc.Restart = "on-failure") ∧
    transformK8sService {} trivOracles ("db") dbSvc = .ok dbObjs ∧
    dbObjs.filter (fun o => ! isPvcObj o) =
      [InitPod ("db") (defaultImage ("db") dbSvc)] ∧
    dbObjs.filter isControllerObj = [] ∧ dbObjs.filter isNetworkObj = [] :=
  ⟨Or.inr rfl, rfl,
    (c2_bare_pod_amended {} trivOracles ("db") dbSvc (Or.inr rfl)).1 dbObjs
      rfl rfl rfl rfl⟩

theorem not_network_facts (o : KObject) (h : isNetworkObj o = false) :
    isServiceObj o = false ∧ isIngressObj o = false ∧ isRouteObj o = false := by
  cases o <;> simp [isNetworkObj, isServiceObj, isIngressObj, isRouteObj] at h ⊢

/-- C4 counterexample: a portless service with a non-empty expose value gets a
headless exposure object and NO ingress/route object, so the object graph does
not contain exactly one route/ingress object for it.  Moreover, even a service
WITH a declared port and a non-empty expose value gets no route on the
OpenShift delegated-build path when it declares a build context and the
compose-file-directory detection fails: the service is skipped wholesale and
contributes no objects at all. -/
theorem c4_counterexample :
    exSvc.ExposeService ≠ "" ∧
    transformK8sService {} trivOracles ("x") exSvc = .ok exObjs ∧
    exObjs.filter isIngressObj = [] ∧ exObjs.filter isRouteObj = [] ∧
    x2Svc.ExposeService ≠ "" ∧ x2Svc.Port ≠ [] ∧ x2Svc.Restart ≠ "no" ∧
    x2Svc.Restart ≠ "on-failure" ∧
    transformOSService { Build := "build-config" } noDirOracles ("x2") x2Svc
      ("") ("") = .ok ([], "", "") ∧
    ([] : List KObject).filter isRouteObj = [] :=
  ⟨by decide, rfl, rfl, rfl, by decide, by decide, by decide, by decide,
    rfl, rfl⟩

/-- C4 (amended): for every service whose restart policy is neither "no" nor
"on-failure", that declares at least one port, and whose expose value is
non-empty, the per-service objects contain exactly one ingress (Kubernetes) /
route (OpenShift) object; it references the resolved host port of the first
declared port, which is the first port entry of the service's exposure object,
and its host is unset (empty) when the expose value is exactly "true" and is
the expose value verbatim otherwise.  Two exceptions, both forced by the
counterexample: a service with no declared ports (headless exposure) or a
bare-pod restart policy gets no route/ingress even when the expose value is
set; and on the OpenShift delegated-build path, a service with a build context
under build-config mode whose compose-file-directory detection fails is
skipped wholesale and gets no route either — hence the hypothesis that the
service has no build context, or the run is not in build-config mode, or the
compose-file directory resolves. -/
theorem c4_route_ingress_amended (opt : ConvertOptions) (or : TransformOracles)
    (name : String) (s : ServiceConfig) (p0 : PortMapping)
    (prest : List PortMapping)
    (hr1 : s.Restart ≠ "no") (hr2 : s.Restart ≠ "on-failure")
    (hport : s.Port = p0 :: prest) (hx : s.ExposeService ≠ "") :
    (∀ objs, transformK8sService opt or name s = .ok objs →
      objs.filter isIngressObj =
        [KObject.ingress name (ConfigLabels name)
          (if s.ExposeService = "true" then "" else s.ExposeService)
          name (resolvedPort p0)] ∧
      ∀ svc ∈ objs.filter isServiceObj,
        (svc.svcPorts.map (fun e => e.Port)).head? = some (resolvedPort p0)) ∧
    (∀ out repo branch,
      (s.Build = "" ∨ opt.Build ≠ "build-config" ∨
        ∃ d, or.composeFileDir = .ok d) →
      transformOSService opt or name s repo branch = .ok out →
      out.1.filter isRouteObj =
        [KObject.route name (ConfigLabels name)
          (if s.ExposeService = "true" then "" else s.ExposeService)
          name (resolvedPort p0)] ∧
      ∀ svc ∈ out.1.filter isServiceObj,
        (svc.svcPorts.map (fun e => e.Port)).head? = some (resolvedPort p0)) := by
  have hdport : (defaultImage name s).Port = p0 :: prest := by
    rw [defaultImage_Port, hport]
  have hpe : PortsExist (defaultImage name s) = true := by
    simp [PortsExist, hdport]
  have hdx : (defaultImage name s).ExposeService = s.ExposeService :=
    defaultImage_Expose name s
  have hfsp : firstServicePort (CreateService name (defaultImage name s)) =
      resolvedPort p0 :=
    firstServicePort_CreateService name (defaultImage name s) p0 prest hdport
  have hhost : (if (defaultImage name s).ExposeService ≠ "true" then
      (defaultImage name s).ExposeService else "") =
      (if s.ExposeService = "true" then "" else s.ExposeService) := by
    rw [hdx]
    by_cases ht : s.ExposeService = "true" <;> simp [ht]
  have hsvcports : ∀ svc ∈ [CreateService name (defaultImage name s)],
      (svc.svcPorts.map (fun e => e.Port)).head? = some (resolvedPort p0) := by
    intro svc hsvc
    simp only [List.mem_singleton] at hsvc
    rw [hsvc]
    show ((ConfigServicePorts (defaultImage name s)).map (fun e => e.Port)).head?
      = some (resolvedPort p0)
    simp [ConfigServicePorts, hdport, resolvedPort]
  constructor
  · intro objs h
    have hshape := transformK8sService_ok_shape opt or name s objs hr1 hr2 h
    constructor
    · rw [hshape,
        updateObjects_filter _ _ _ _ _
          (fun o hp => (pvc_kind_facts o hp).2.2.1),
        serviceAndIngress_filter_ingress _ _ _
          (fun o hm => (controller_kind_facts o
            (CKO_all_controller _ _ _ o hm)).2.2.1),
        if_pos (by simp [hpe, hdx, hx]), hfsp]
      unfold initIngress
      rw [hhost]
    · rw [hshape,
        updateObjects_filter _ _ _ _ _
          (fun o hp => (pvc_kind_facts o hp).2.1),
        serviceAndIngress_filter_service _ _ _
          (fun o hm => (controller_kind_facts o
            (CKO_all_controller _ _ _ o hm)).2.1),
        if_pos hpe]
      exact hsvcports
  · intro out repo branch hbc h
    obtain ⟨base, hbase, hobjs⟩ := transformOSService_ok_normal opt or name s
      repo branch out.1 out.2 hr1 hr2 hbc (by rw [← h])
    constructor
    · rw [hobjs,
        updateObjects_filter _ _ _ _ _
          (fun o hp => (pvc_kind_facts o hp).2.2.2.1),
        serviceAndRoute_filter_route _ _ _
          (fun o hm => (not_network_facts o (hbase o hm).1).2.2),
        if_pos (by simp [hpe, hdx, hx]), hfsp]
      unfold initRoute
      rw [hhost]
    · rw [hobjs,
        updateObjects_filter _ _ _ _ _
          (fun o hp => (pvc_kind_facts o hp).2.1),
        serviceAndRoute_filter_service _ _ _
          (fun o hm => (not_network_facts o (hbase o hm).1).1),
        if_pos hpe]
      exact hsvcports

/-- Closed instance of `c4_route_ingress_amended` at the exposed web
service. -/
theorem c4_route_ingress_amended_witness :
    wexSvc.ExposeService ≠ "" ∧
    transformK8sService {} trivOracles ("web") wexSvc = .ok wexObjs ∧
    wexObjs.filter isIngressObj =
      [KObject.ingress ("web") (ConfigLabels ("web"))
        (if wexSvc.ExposeService = "true" then "" else wexSvc.ExposeService)
        ("web") (resolvedPort { ContainerPort := 80 })] :=
  ⟨by decide, rfl,
    ((c4_route_ingress_amended {} trivOracles ("web") wexSvc
      { ContainerPort := 80 } [] (by decide) (by decide) rfl (by decide)).1
      wexObjs rfl).1⟩

theorem sortServicesFirst_index (l : List KObject) (i j : Nat)
    (hi : i < (SortServicesFirst l).length)
    (hj : j < (SortServicesFirst l).length)
    (hpi : isNetworkObj ((SortServicesFirst l).get ⟨i, hi⟩) = true)
    (hpj : isNetworkObj ((SortServicesFirst l).get ⟨j, hj⟩) = false) :
    i < j := by
  unfold SortServicesFirst at hi hj hpi hpj
  rw [List.get_eq_getElem] at hpi hpj
  have hiA : i < (l.filter isNetworkObj).length := by
    by_contra hge
    push_neg at hge
    rw [List.getElem_append_right hge] at hpi
    have hmem := List.getElem_mem
      (l := l.filter (fun o => ! isNetworkObj o))
      (n := i - (l.filter isNetworkObj).length)
      (by rw [List.length_append] at hi; omega)
    have hb := (List.mem_filter.mp hmem).2
    simp only [Bool.not_eq_true'] at hb
    rw [hpi] at hb
    cases hb
  have hjB : ¬ j < (l.filter isNetworkObj).length := by
    intro hlt
    rw [List.getElem_append_left hlt] at hpj
    have hmem := List.getElem_mem (l := l.filter isNetworkObj) (n := j) hlt
    have ha := (List.mem_filter.mp hmem).2
    rw [hpj] at ha
    cases ha
  omega

theorem sortServicesFirst_stable_pos (l : List KObject) :
    (SortServicesFirst l).filter isNetworkObj = l.filter isNetworkObj := by
  unfold SortServicesFirst
  rw [List.filter_append, List.filter_filter, List.filter_filter]
  simp

theorem sortServicesFirst_stable_neg (l : List KObject) :
    (SortServicesFirst l).filter (fun o => ! isNetworkObj o) =
      l.filter (fun o => ! isNetworkObj o) := by
  unfold SortServicesFirst
  rw [List.filter_append, List.filter_filter, List.filter_filter]
  simp

/-- C3: in every object graph returned by either transform, every network
exposure / route / ingress object occurs at a smaller index than every object
of any other kind, and the relative order within each of the two groups is the
emission order: the ordering pass is a stable partition of the raw emission
order. -/
theorem c3_ordering_pass (ko : KomposeObject) (opt : ConvertOptions)
    (or : TransformOracles) (ko2 : KomposeObject) (opt2 : ConvertOptions)
    (or2 : TransformOracles) (rawK rawO : List KObject)
    (hk : TransformK8sRaw ko opt or = .ok rawK)
    (ho : TransformOSRaw ko2 opt2 or2 = .ok rawO) :
    (TransformK8s ko opt or = .ok (SortServicesFirst rawK) ∧
     (∀ i j (hi : i < (SortServicesFirst rawK).length)
        (hj : j < (SortServicesFirst rawK).length),
        isNetworkObj ((SortServicesFirst rawK).get ⟨i, hi⟩) = true →
        isNetworkObj ((SortServicesFirst rawK).get ⟨j, hj⟩) = false → i < j) ∧
     (SortServicesFirst rawK).filter isNetworkObj =
       rawK.filter isNetworkObj ∧
     (SortServicesFirst rawK).filter (fun o => ! isNetworkObj o) =
       rawK.filter (fun o => ! isNetworkObj o)) ∧
    (TransformOS ko2 opt2 or2 = .ok (SortServicesFirst rawO) ∧
     (∀ i j (hi : i < (SortServicesFirst rawO).length)
        (hj : j < (SortServicesFirst rawO).length),
        isNetworkObj ((SortServicesFirst rawO).get ⟨i, hi⟩) = true →
        isNetworkObj ((SortServicesFirst rawO).get ⟨j, hj⟩) = false → i < j) ∧
     (SortServicesFirst rawO).filter isNetworkObj =
       rawO.filter isNetworkObj ∧
     (SortServicesFirst rawO).filter (fun o => ! isNetworkObj o) =
       rawO.filter (fun o => ! isNetworkObj o)) := by
  refine ⟨⟨?_, fun i j hi hj hpi hpj =>
      sortServicesFirst_index rawK i j hi hj hpi hpj,
      sortServicesFirst_stable_pos rawK, sortServicesFirst_stable_neg rawK⟩,
    ⟨?_, fun i j hi hj hpi hpj =>
      sortServicesFirst_index rawO i j hi hj hpi hpj,
      sortServicesFirst_stable_pos rawO, sortServicesFirst_stable_neg rawO⟩⟩
  · unfold TransformK8s
    rw [hk]
    rfl
  · unfold TransformOS
    rw [ho]
    rfl

/-- Closed instance of `c3_ordering_pass` at the one-service model. -/
theorem c3_ordering_pass_witness :
    TransformK8sRaw oneModel {} trivOracles = .ok webObjs ∧
    TransformOSRaw oneModel {} trivOracles = .ok webObjs ∧
    TransformK8s oneModel {} trivOracles = .ok (SortServicesFirst webObjs) ∧
    TransformOS oneModel {} trivOracles = .ok (SortServicesFirst webObjs) :=
  ⟨rfl, rfl,
    (c3_ordering_pass oneModel {} trivOracles oneModel {} trivOracles webObjs
      webObjs rfl rfl).1.1,
    (c3_ordering_pass oneModel {} trivOracles oneModel {} trivOracles webObjs
      webObjs rfl rfl).2.1⟩

/-! ### Error propagation through the service loops -/

theorem transformK8sService_flag_error (opt : ConvertOptions)
    (or : TransformOracles) (name : String) (s : ServiceConfig)
    (hr : s.Restart = "no" ∨ s.Restart = "on-failure")
    (hf : (opt.IsDeploymentFlag || opt.IsDaemonSetFlag ||
      opt.IsReplicationControllerFlag) = true) :
    ∃ e, transformK8sService opt or name s = .error e := by
  unfold transformK8sService
  cases hb : k8sBuildPush opt or name s with
  | error e => exact ⟨e, rfl⟩
  | ok u =>
    refine ⟨"Controller object cannot be specified with restart on-failure", ?_⟩
    rw [if_pos (by rcases hr with hr | hr <;> simp [defaultImage_Restart, hr]),
      if_pos hf]

theorem transformOSService_flag_error (opt : ConvertOptions)
    (or : TransformOracles) (name : String) (s : ServiceConfig)
    (hr : s.Restart = "no" ∨ s.Restart = "on-failure")
    (hf : opt.IsDeploymentConfigFlag = true) :
    ∀ repo branch,
      ∃ e, transformOSService opt or name s repo branch = .error e := by
  intro repo branch
  unfold transformOSService
  cases hb : osBuildPush opt or name s with
  | error e => exact ⟨e, rfl⟩
  | ok u =>
    refine ⟨"Controller object cannot be specified with restart on-failure", ?_⟩
    rw [if_pos (by rcases hr with hr | hr <;> simp [defaultImage_Restart, hr]),
      if_pos hf]

theorem transformK8sGo_error (ko : KomposeObject) (opt : ConvertOptions)
    (or : TransformOracles) (ns : List String) (n : String)
    (hmem : n ∈ ns)
    (hstep : ∃ e, transformK8sService opt or n (lookupService ko n) = .error e) :
    ∃ e, transformK8sGo ko opt or ns = .error e := by
  induction ns with
  | nil => cases hmem
  | cons m rest ih =>
    unfold transformK8sGo
    cases hs : transformK8sService opt or m (lookupService ko m) with
    | error e => exact ⟨e, rfl⟩
    | ok objs =>
      rcases List.mem_cons.mp hmem with heq | hmem2
      · subst heq
        obtain ⟨e, he⟩ := hstep
        rw [hs] at he
        cases he
      · obtain ⟨e, he⟩ := ih hmem2
        exact ⟨e, by rw [he]⟩

theorem transformOSGo_error (ko : KomposeObject) (opt : ConvertOptions)
    (or : TransformOracles) (ns : List String) (n : String)
    (hmem : n ∈ ns)
    (hstep : ∀ repo branch,
      ∃ e, transformOSService opt or n (lookupService ko n) repo branch =
        .error e) :
    ∀ repo branch,
      ∃ e, transformOSGo ko opt or ns repo branch = .error e := by
  induction ns with
  | nil => cases hmem
  | cons m rest ih =>
    intro repo branch
    unfold transformOSGo
    cases hs : transformOSService opt or m (lookupService ko m) repo branch with
    | error e => exact ⟨e, rfl⟩
    | ok out =>
      obtain ⟨objs, repo2, branch2⟩ := out
      rcases List.mem_cons.mp hmem with heq | hmem2
      · subst heq
        obtain ⟨e, he⟩ := hstep repo branch
        rw [hs] at he
        cases he
      · obtain ⟨e, he⟩ := ih hmem2 repo2 branch2
        refine ⟨e, ?_⟩
        show (match transformOSGo ko opt or rest repo2 branch2 with
          | Except.error e => Except.error e
          | Except.ok restObjs => Except.ok (objs ++ restObjs)) = Except.error e
        rw [he]

/-- C6: for a service whose restart policy is "no" or "on-failure", forcing a
named controller kind (deployment / daemon set / replication controller on
Kubernetes; deployment config on OpenShift) makes the whole Transform fail
with an error: no object graph is returned. -/
theorem c6_controller_conflict (ko : KomposeObject) (or : TransformOracles)
    (n : String) (s : ServiceConfig)
    (hmem : n ∈ SortedKeys ko) (hs : lookupService ko n = s)
    (hr : s.Restart = "no" ∨ s.Restart = "on-failure") :
    (∀ opt : ConvertOptions,
      (opt.IsDeploymentFlag || opt.IsDaemonSetFlag ||
        opt.IsReplicationControllerFlag) = true →
      ∃ e, TransformK8s ko opt or = .error e) ∧
    (∀ opt : ConvertOptions, opt.IsDeploymentConfigFlag = true →
      ∃ e, TransformOS ko opt or = .error e) := by
  constructor
  · intro opt hf
    obtain ⟨e, he⟩ := transformK8sGo_error ko opt or (SortedKeys ko) n hmem
      (by rw [hs]; exact transformK8sService_flag_error opt or n s hr hf)
    exact ⟨e, by unfold TransformK8s TransformK8sRaw; rw [he]; rfl⟩
  · intro opt hf
    obtain ⟨e, he⟩ := transformOSGo_error ko opt or (SortedKeys ko) n hmem
      (by rw [hs]; exact transformOSService_flag_error opt or n s hr hf)
      opt.BuildRepo opt.BuildBranch
    exact ⟨e, by unfold TransformOS TransformOSRaw; rw [he]; rfl⟩

/-- Closed instance of `c6_controller_conflict`: forcing a Deployment (resp. a
DeploymentConfig) together with restart "on-failure" fails the transform. -/
theorem c6_controller_conflict_witness :
    ("db" ∈ SortedKeys podModel) ∧ lookupService podModel ("db") = dbSvc ∧
    TransformK8s podModel { IsDeploymentFlag := true } trivOracles =
      .error ("Controller object cannot be specified with restart on-failure") ∧
    (∃ e, TransformK8s podModel { IsDeploymentFlag := true } trivOracles =
      .error e) ∧
    (∃ e, TransformOS podModel { IsDeploymentConfigFlag := true } trivOracles =
      .error e) :=
  ⟨by decide, rfl, rfl,
    (c6_controller_conflict podModel trivOracles ("db") dbSvc (by decide) rfl
      (Or.inr rfl)).1 { IsDeploymentFlag := true } rfl,
    (c6_controller_conflict podModel trivOracles ("db") dbSvc (by decide) rfl
      (Or.inr rfl)).2 { IsDeploymentConfigFlag := true } rfl⟩

theorem k8sBuildPush_fails (opt : ConvertOptions) (or : TransformOracles)
    (name : String) (s : ServiceConfig)
    (hb : opt.Build = "local") (hin : opt.InputFiles ≠ []) (hctx : s.Build ≠ "")
    (hfail : s.Image = "" ∨ ∀ d, (∃ e, or.buildImage name d = .error e) ∨
      (∃ e, or.pushImage name = .error e)) :
    ∃ e, k8sBuildPush opt or name s = .error e := by
  unfold k8sBuildPush
  rw [if_pos (by simp [hb, hctx, hin])]
  by_cases him : s.Image = ""
  · rw [if_pos him]
    exact ⟨_, rfl⟩
  · rw [if_neg him]
    rcases hfail with him2 | hfail
    · exact absurd him2 him
    cases hd : or.composeFileDir with
    | error e => exact ⟨e, rfl⟩
    | ok d =>
      show ∃ err, (match or.buildImage name d with
        | Except.error e =>
          Except.error
            ("Unable to build Docker image for service " ++ name ++ ": " ++ e)
        | Except.ok _ =>
          match or.pushImage name with
          | Except.error e =>
            Except.error
              ("Unable to push Docker image for service " ++ name ++ ": " ++ e)
          | Except.ok _ => Except.ok ()) = Except.error err
      rcases hfail d with ⟨e, he⟩ | ⟨e, he⟩
      · exact ⟨"Unable to build Docker image for service " ++ name ++ ": " ++ e,
          by rw [he]⟩
      · cases hbuild : or.buildImage name d with
        | error e2 =>
          exact ⟨"Unable to build Docker image for service " ++ name ++ ": " ++
            e2, rfl⟩
        | ok u =>
          exact ⟨"Unable to push Docker image for service " ++ name ++ ": " ++
            e, by rw [he]⟩

theorem osBuildPush_fails (opt : ConvertOptions) (or : TransformOracles)
    (name : String) (s : ServiceConfig)
    (hb : opt.Build = "local") (hin : opt.InputFiles ≠ []) (hctx : s.Build ≠ "")
    (hfail : s.Image = "" ∨ ∀ d, (∃ e, or.buildImage name d = .error e) ∨
      (∃ e, or.pushImage name = .error e)) :
    ∃ e, osBuildPush opt or name s = .error e := by
  unfold osBuildPush
  rw [if_pos (by simp [hb, hctx, hin])]
  by_cases him : s.Image = ""
  · rw [if_pos him]
    exact ⟨_, rfl⟩
  · rw [if_neg him]
    rcases hfail with him2 | hfail
    · exact absurd him2 him
    cases hd : or.composeFileDir with
    | error e => exact ⟨e, rfl⟩
    | ok d =>
      show ∃ err, (match or.buildImage name d with
        | Except.error e =>
          Except.error
            ("Unable to build Docker container for service " ++ name ++ ": " ++ e)
        | Except.ok _ =>
          match or.pushImage name with
          | Except.error e =>
            Except.error
              ("Unable to push Docker image for service " ++ name ++ ": " ++ e)
          | Except.ok _ => Except.ok ()) = Except.error err
      rcases hfail d with ⟨e, he⟩ | ⟨e, he⟩
      · exact ⟨"Unable to build Docker container for service " ++ name ++
          ": " ++ e, by rw [he]⟩
      · cases hbuild : or.buildImage name d with
        | error e2 =>
          exact ⟨"Unable to build Docker container for service " ++ name ++
            ": " ++ e2, rfl⟩
        | ok u =>
          exact ⟨"Unable to push Docker image for service " ++ name ++ ": " ++
            e, by rw [he]⟩

theorem transformK8sService_build_error (opt : ConvertOptions)
    (or : TransformOracles) (name : String) (s : ServiceConfig)
    (hb : opt.Build = "local") (hin : opt.InputFiles ≠ []) (hctx : s.Build ≠ "")
    (hfail : s.Image = "" ∨ ∀ d, (∃ e, or.buildImage name d = .error e) ∨
      (∃ e, or.pushImage name = .error e)) :
    ∃ e, transformK8sService opt or name s = .error e := by
  obtain ⟨e, he⟩ := k8sBuildPush_fails opt or name s hb hin hctx hfail
  exact ⟨e, by unfold transformK8sService; rw [he]⟩

theorem transformOSService_build_error (opt : ConvertOptions)
    (or : TransformOracles) (name : String) (s : ServiceConfig)
    (hb : opt.Build = "local") (hin : opt.InputFiles ≠ []) (hctx : s.Build ≠ "")
    (hfail : s.Image = "" ∨ ∀ d, (∃ e, or.buildImage name d = .error e) ∨
      (∃ e, or.pushImage name = .error e)) :
    ∀ repo branch,
      ∃ e, transformOSService opt or name s repo branch = .error e := by
  intro repo branch
  obtain ⟨e, he⟩ := osBuildPush_fails opt or name s hb hin hctx hfail
  exact ⟨e, by unfold transformOSService; rw [he]⟩

/-- C9 counterexample: on the OpenShift delegated-build (build-config) path, a
compose-file-directory detection failure while generating service "a"'s
BuildConfig does NOT abort the transform: it skips the service with a warning,
and the transform returns, without error, an object graph holding service "b"'s
objects and none of service "a"'s — a partial object graph. -/
theorem c9_counterexample :
    (("a", ({ Image := ("img"), Build := ("ctx") } : ServiceConfig)) ∈
      twoSvcModel.ServiceConfigs) ∧
    ({ Image := ("img"), Build := ("ctx") } : ServiceConfig).Build ≠ "" ∧
    noDirOracles.composeFileDir = .error ("no compose dir") ∧
    TransformOS twoSvcModel { Build := "build-config" } noDirOracles =
      .ok [KObject.service ("b") (ConfigLabels ("b")) (ConfigLabels ("b"))
        [{ Name := ("81"), Protocol := none, Port := 81, TargetPort := 81 }]
        ("")] ∧
    (∀ o ∈ [KObject.service ("b") (ConfigLabels ("b")) (ConfigLabels ("b"))
        [{ Name := ("81"), Protocol := none, Port := 81, TargetPort := 81 }]
        ("")], o.objName ≠ "a") :=
  ⟨by decide, by decide, rfl, rfl, by decide⟩

/-- C9 (amended): whenever the local build or push step fails for a service
(or its image name is missing), the whole transform aborts with an error and
returns no object graph, on both platform paths (on the OpenShift path the
failure is a fatal process exit, modelled as an aborting error).  The one
exception, forced by the counterexample, is the OpenShift delegated-build
path, where a compose-file-directory detection failure skips only that
service and a partial graph is returned. -/
theorem c9_build_abort_amended (ko : KomposeObject) (opt : ConvertOptions)
    (or : TransformOracles) (n : String) (s : ServiceConfig)
    (hmem : n ∈ SortedKeys ko) (hsv : lookupService ko n = s)
    (hb : opt.Build = "local") (hin : opt.InputFiles ≠ []) (hctx : s.Build ≠ "")
    (hfail : s.Image = "" ∨ ∀ d, (∃ e, or.buildImage n d = .error e) ∨
      (∃ e, or.pushImage n = .error e)) :
    (∃ e, TransformK8s ko opt or = .error e) ∧
    (∃ e, TransformOS ko opt or = .error e) := by
  constructor
  · obtain ⟨e, he⟩ := transformK8sGo_error ko opt or (SortedKeys ko) n hmem
      (by rw [hsv]
          exact transformK8sService_build_error opt or n s hb hin hctx hfail)
    exact ⟨e, by unfold TransformK8s TransformK8sRaw; rw [he]; rfl⟩
  · obtain ⟨e, he⟩ := transformOSGo_error ko opt or (SortedKeys ko) n hmem
      (by rw [hsv]
          exact transformOSService_build_error opt or n s hb hin hctx hfail)
      opt.BuildRepo opt.BuildBranch
    exact ⟨e, by unfold TransformOS TransformOSRaw; rw [he]; rfl⟩

/-- Closed instance of `c9_build_abort_amended`: with a failing docker build
capability, both transforms abort with an error. -/
theorem c9_build_abort_amended_witness :
    ("a" ∈ SortedKeys twoSvcModel) ∧
    lookupService twoSvcModel ("a") = { Image := ("img"), Build := ("ctx") } ∧
    TransformK8s twoSvcModel { Build := "local", InputFiles := ["f"] }
        failBuildOracles =
      .error ("Unable to build Docker image for service a: boom") ∧
    (∃ e, TransformK8s twoSvcModel { Build := "local", InputFiles := ["f"] }
      failBuildOracles = .error e) ∧
    (∃ e, TransformOS twoSvcModel { Build := "local", InputFiles := ["f"] }
      failBuildOracles = .error e) :=
  ⟨by decide, rfl, rfl,
    (c9_build_abort_amended twoSvcModel { Build := "local", InputFiles := ["f"] }
      failBuildOracles ("a") { Image := ("img"), Build := ("ctx") } (by decide)
      rfl rfl (by simp) (by decide)
      (Or.inr fun d => Or.inl ⟨("boom"), rfl⟩)).1,
    (c9_build_abort_amended twoSvcModel { Build := "local", InputFiles := ["f"] }
      failBuildOracles ("a") { Image := ("img"), Build := ("ctx") } (by decide)
      rfl rfl (by simp) (by decide)
      (Or.inr fun d => Or.inl ⟨("boom"), rfl⟩)).2⟩

/-! ### Undeploy: exact-label deletion and error collection -/

theorem undeployItems_deleted_sound (iface : ClusterIface) (kind : ObjKind)
    (name : String) (items : List LiveObject) (l : LiveObject)
    (h : l ∈ (undeployItems iface kind name items).2) :
    labelsEq l.labels (ConfigLabels name) = true := by
  induction items with
  | nil => simp [undeployItems] at h
  | cons x rest ih =>
    unfold undeployItems at h
    split at h
    · rename_i hgate
      split at h
      · simp at h
      · have h2 : l ∈ x :: (undeployItems iface kind name rest).2 := h
        rcases List.mem_cons.mp h2 with rfl | hmem
        · exact hgate
        · exact ih hmem
    · exact ih h

theorem undeployStep_deleted_sound (iface : ClusterIface) (kind : ObjKind)
    (name : String) (l : LiveObject)
    (h : l ∈ (undeployStep iface kind name).2) :
    labelsEq l.labels (ConfigLabels name) = true := by
  unfold undeployStep at h
  split at h
  · simp at h
  · exact undeployItems_deleted_sound iface kind name _ l h

theorem labelsEq_extra_key_false (labels : List (String × String))
    (k v : String) (hmem : (k, v) ∈ labels) (hk : k ≠ Selector)
    (name : String) :
    labelsEq labels (ConfigLabels name) = false := by
  by_contra hne
  rw [Bool.not_eq_false] at hne
  unfold labelsEq at hne
  rw [Bool.and_eq_true] at hne
  have hall := List.all_eq_true.mp hne.1 (k, v) hmem
  rw [decide_eq_true_eq] at hall
  have h1 : lookupLabel (ConfigLabels name) k = none := by
    unfold lookupLabel ConfigLabels
    simp [Ne.symm hk]
  rw [h1] at hall
  have hsome : (labels.find? (fun p => decide (p.1 = k))).isSome :=
    List.find?_isSome.mpr ⟨(k, v), hmem, by simp⟩
  cases hf : labels.find? (fun p => decide (p.1 = k)) with
  | none => rw [hf] at hsome; cases hsome
  | some q =>
    have : lookupLabel labels k = some q.2 := by
      unfold lookupLabel
      rw [hf]
      rfl
    rw [this] at hall
    cases hall

/-- C7: during Undeploy, a live listed object is deleted only if its label set
is exactly equal — as a whole map — to the single-entry map
{selector-key: object name}; a live object whose labels merely include that
entry among others is matched by the selector (it is listed) but never
deleted. -/
theorem c7_exact_label_delete (iface : ClusterIface) (kind : ObjKind)
    (name : String) :
    (∀ l, l ∈ (undeployStep iface kind name).2 →
      labelsEq l.labels (ConfigLabels name) = true) ∧
    (∀ (cluster : List LiveObject) (l : LiveObject), l ∈ cluster →
      l.kind = kind → lookupLabel l.labels Selector = some name →
      (∃ kv ∈ l.labels, kv.1 ≠ Selector) →
      l ∈ listLive cluster kind name ∧
      l ∉ (undeployStep (clusterIface cluster) kind name).2) := by
  constructor
  · exact fun l h => undeployStep_deleted_sound iface kind name l h
  · intro cluster l hmem hkind hsel hex
    obtain ⟨kv, hkv, hkvne⟩ := hex
    constructor
    · unfold listLive
      rw [List.mem_filter]
      exact ⟨hmem, by simp [hkind, selectorMatches, hsel]⟩
    · intro hdel
      have hs := undeployStep_deleted_sound (clusterIface cluster) kind name
        l hdel
      rw [labelsEq_extra_key_false l.labels kv.1 kv.2 hkv hkvne name] at hs
      cases hs

/-- Closed instance of `c7_exact_label_delete`: a live object carrying the
selector entry plus one more label is listed but not deleted. -/
theorem c7_exact_label_delete_witness :
    fatLive ∈ [fatLive] ∧ fatLive.kind = ObjKind.service ∧
    lookupLabel fatLive.labels Selector = some ("web") ∧
    fatLive ∈ listLive [fatLive] ObjKind.service ("web") ∧
    fatLive ∉ (undeployStep (clusterIface [fatLive]) ObjKind.service
      ("web")).2 :=
  ⟨List.mem_cons_self fatLive [], rfl, rfl,
    ((c7_exact_label_delete (clusterIface [fatLive]) ObjKind.service
      ("web")).2 [fatLive] fatLive (List.mem_cons_self fatLive []) rfl rfl
      ⟨("app", "x"), by decide, by decide⟩).1,
    ((c7_exact_label_delete (clusterIface [fatLive]) ObjKind.service
      ("web")).2 [fatLive] fatLive (List.mem_cons_self fatLive []) rfl rfl
      ⟨("app", "x"), by decide, by decide⟩).2⟩

theorem undeployLoop_append (iface : ClusterIface) (covered : ObjKind → Bool)
    (g₁ g₂ : List (ObjKind × String)) :
    undeployLoop iface covered (g₁ ++ g₂) =
      ((undeployLoop iface covered g₁).1 ++ (undeployLoop iface covered g₂).1,
       (undeployLoop iface covered g₁).2 ++
         (undeployLoop iface covered g₂).2) := by
  induction g₁ with
  | nil => simp [undeployLoop]
  | cons e rest ih =>
    show ((if covered e.1 then undeployStep iface e.1 e.2 else ([], [])).1 ++
        (undeployLoop iface covered (rest ++ g₂)).1,
      (if covered e.1 then undeployStep iface e.1 e.2 else ([], [])).2 ++
        (undeployLoop iface covered (rest ++ g₂)).2) = _
    rw [ih]
    simp [undeployLoop, List.append_assoc]

theorem undeployLoop_errors_nil_iff (iface : ClusterIface)
    (covered : ObjKind → Bool) (g : List (ObjKind × String)) :
    (undeployLoop iface covered g).1 = [] ↔
      ∀ p ∈ g, covered p.1 = true → (undeployStep iface p.1 p.2).1 = [] := by
  induction g with
  | nil => simp [undeployLoop]
  | cons e rest ih =>
    show ((if covered e.1 then undeployStep iface e.1 e.2 else ([], [])).1 ++
      (undeployLoop iface covered rest).1) = [] ↔ _
    rw [List.append_eq_nil]
    constructor
    · rintro ⟨h1, h2⟩ p hp hc
      rcases List.mem_cons.mp hp with rfl | hp2
      · rw [if_pos hc] at h1
        exact h1
      · exact ih.mp h2 p hp2 hc
    · intro hall
      refine ⟨?_, ih.mpr fun p hp hc => hall p (List.mem_cons_of_mem _ hp) hc⟩
      by_cases hc : covered e.1
      · rw [if_pos hc]
        exact hall e (List.mem_cons_self e rest) hc
      · rw [if_neg hc]

theorem undeployLoop_no_live (iface : ClusterIface) (covered : ObjKind → Bool)
    (g : List (ObjKind × String))
    (hlist : ∀ kind name, iface.list kind name = .ok []) :
    undeployLoop iface covered g = ([], []) := by
  induction g with
  | nil => rfl
  | cons e rest ih =>
    have hstep : undeployStep iface e.1 e.2 = ([], []) := by
      unfold undeployStep
      rw [hlist e.1 e.2]
      rfl
    unfold undeployLoop
    rw [ih, hstep]
    by_cases hc : covered e.1 <;> simp [hc]

/-- C8: given a successful transform, Undeploy appends every list/delete
error for an object to the run-wide error list and still continues to the
remaining objects (the loop over a concatenation is the concatenation of the
loops); the returned list is empty exactly when no handled object's step
produced an error; in particular, against a cluster listing no matching live
objects Undeploy returns the empty error list rather than an error.  Both the
Kubernetes and the OpenShift orchestrators are covered. -/
theorem c8_undeploy_errors (ko : KomposeObject) (opt : ConvertOptions)
    (or : TransformOracles) (iface : ClusterIface) (objs : List KObject)
    (ht : TransformK8s ko opt or = .ok objs)
    (ko2 : KomposeObject) (opt2 : ConvertOptions) (or2 : TransformOracles)
    (iface2 : ClusterIface) (objs2 : List KObject)
    (ht2 : TransformOS ko2 opt2 or2 = .ok objs2) :
    (∀ (covered : ObjKind → Bool) (g₁ g₂ : List (ObjKind × String)),
      undeployLoop iface covered (g₁ ++ g₂) =
        ((undeployLoop iface covered g₁).1 ++
           (undeployLoop iface covered g₂).1,
         (undeployLoop iface covered g₁).2 ++
           (undeployLoop iface covered g₂).2)) ∧
    UndeployK8s ko opt or iface =
      undeployLoop iface k8sUndeployKind
        (objs.map fun o => (o.kind, o.objName)) ∧
    ((UndeployK8s ko opt or iface).1 = [] ↔
      ∀ p ∈ objs.map (fun o => (o.kind, o.objName)),
        k8sUndeployKind p.1 = true → (undeployStep iface p.1 p.2).1 = []) ∧
    ((∀ kind name, iface.list kind name = .ok []) →
      UndeployK8s ko opt or iface = ([], [])) ∧
    UndeployOS ko2 opt2 or2 iface2 =
      undeployLoop iface2 osUndeployKind
        (objs2.map fun o => (o.kind, o.objName)) ∧
    ((UndeployOS ko2 opt2 or2 iface2).1 = [] ↔
      ∀ p ∈ objs2.map (fun o => (o.kind, o.objName)),
        osUndeployKind p.1 = true → (undeployStep iface2 p.1 p.2).1 = []) ∧
    ((∀ kind name, iface2.list kind name = .ok []) →
      UndeployOS ko2 opt2 or2 iface2 = ([], [])) := by
  have hu : UndeployK8s ko opt or iface =
      undeployLoop iface k8sUndeployKind
        (objs.map fun o => (o.kind, o.objName)) := by
    unfold UndeployK8s
    rw [ht]
  have hu2 : UndeployOS ko2 opt2 or2 iface2 =
      undeployLoop iface2 osUndeployKind
        (objs2.map fun o => (o.kind, o.objName)) := by
    unfold UndeployOS
    rw [ht2]
  refine ⟨fun covered g₁ g₂ => undeployLoop_append iface covered g₁ g₂,
    hu, ?_, ?_, hu2, ?_, ?_⟩
  · rw [hu]
    exact undeployLoop_errors_nil_iff iface k8sUndeployKind _
  · intro hlist
    rw [hu]
    exact undeployLoop_no_live iface k8sUndeployKind _ hlist
  · rw [hu2]
    exact undeployLoop_errors_nil_iff iface2 osUndeployKind _
  · intro hlist
    rw [hu2]
    exact undeployLoop_no_live iface2 osUndeployKind _ hlist

/-- Closed instance of `c8_undeploy_errors`: undeploying the one-service model
against a cluster with no live objects returns the empty error list. -/
theorem c8_undeploy_errors_witness :
    TransformK8s oneModel {} trivOracles = .ok (SortServicesFirst webObjs) ∧
    TransformOS oneModel {} trivOracles = .ok (SortServicesFirst webObjs) ∧
    UndeployK8s oneModel {} trivOracles emptyClusterIface = ([], []) ∧
    UndeployOS oneModel {} trivOracles emptyClusterIface = ([], []) :=
  ⟨rfl, rfl,
    (c8_undeploy_errors oneModel {} trivOracles emptyClusterIface
      (SortServicesFirst webObjs) rfl oneModel {} trivOracles
      emptyClusterIface (SortServicesFirst webObjs) rfl).2.2.2.1
      (fun _ _ => rfl),
    (c8_undeploy_errors oneModel {} trivOracles emptyClusterIface
      (SortServicesFirst webObjs) rfl oneModel {} trivOracles
      emptyClusterIface (SortServicesFirst webObjs) rfl).2.2.2.2.2.2
      (fun _ _ => rfl)⟩

/-! ### Deploy: kind dispatch -/

theorem deployK8sGo_trace_kinds (iface : CreateIface) (objs : List KObject) :
    ∀ p ∈ (deployK8sGo iface objs).1,
      p.1 = ObjKind.deployment ∨ p.1 = ObjKind.service ∨ p.1 = ObjKind.pvc ∨
      p.1 = ObjKind.ingress ∨ p.1 = ObjKind.pod := by
  induction objs with
  | nil => intro p hp; simp [deployK8sGo] at hp
  | cons o rest ih =>
    intro p hp
    unfold deployK8sGo at hp
    split at hp
    · rename_i hc
      split at hp
      · simp at hp
      · have hp2 : p ∈ (o.kind, o.objName) :: (deployK8sGo iface rest).1 := hp
        rcases List.mem_cons.mp hp2 with rfl | hp3
        · cases ho : o.kind <;> rw [ho] at hc <;>
            simp [k8sDeployKind] at hc <;> simp [ho]
        · exact ih p hp3
    · exact ih p hp

theorem deployK8sGo_skips (iface : CreateIface) (o : KObject)
    (ho : k8sDeployKind o.kind = false) (l₁ l₂ : List KObject) :
    deployK8sGo iface (l₁ ++ o :: l₂) = deployK8sGo iface (l₁ ++ l₂) := by
  induction l₁ with
  | nil =>
    show (if k8sDeployKind o.kind then
        match iface.create o.kind o.objName with
        | Except.error e => ([], some e)
        | Except.ok _ => ((o.kind, o.objName) :: (deployK8sGo iface l₂).1,
            (deployK8sGo iface l₂).2)
      else deployK8sGo iface l₂) = deployK8sGo iface l₂
    rw [if_neg (by simp [ho])]
  | cons x rest ih =>
    show deployK8sGo iface (x :: (rest ++ o :: l₂)) =
      deployK8sGo iface (x :: (rest ++ l₂))
    unfold deployK8sGo
    rw [ih]

/-- C10: the Kubernetes Deploy kind dispatch creates only Deployment, Service,
PersistentVolumeClaim, Ingress and Pod objects; a ReplicationController or
DaemonSet object in the transformed graph — which CreateKubernetesObjects does
produce when the corresponding controller kind is requested — is silently
skipped: removing it from the graph changes neither the creation trace nor the
reported outcome, so it is neither created nor reported as an error. -/
theorem c10_deploy_dispatch :
    (∀ (iface : CreateIface) (objs : List KObject)
      (p : ObjKind × String), p ∈ (deployK8sGo iface objs).1 →
      p.1 = ObjKind.deployment ∨ p.1 = ObjKind.service ∨ p.1 = ObjKind.pvc ∨
      p.1 = ObjKind.ingress ∨ p.1 = ObjKind.pod) ∧
    (∀ (iface : CreateIface) (o : KObject) (l₁ l₂ : List KObject),
      (o.kind = ObjKind.replicationController ∨ o.kind = ObjKind.daemonSet) →
      deployK8sGo iface (l₁ ++ o :: l₂) = deployK8sGo iface (l₁ ++ l₂)) ∧
    (∀ (name : String) (s : ServiceConfig) (opt : ConvertOptions),
      opt.CreateRC = true →
      ∃ o ∈ CreateKubernetesObjects name s opt,
        o.kind = ObjKind.replicationController) ∧
    (∀ (name : String) (s : ServiceConfig) (opt : ConvertOptions),
      opt.CreateDS = true →
      ∃ o ∈ CreateKubernetesObjects name s opt, o.kind = ObjKind.daemonSet) := by
  refine ⟨fun iface objs p hp => deployK8sGo_trace_kinds iface objs p hp,
    ?_, ?_, ?_⟩
  · intro iface o l₁ l₂ hk
    refine deployK8sGo_skips iface o ?_ l₁ l₂
    rcases hk with hk | hk <;> rw [hk] <;> rfl
  · intro name s opt h
    refine ⟨InitRC name s
      (if opt.IsReplicaSetFlag || s.Replicas = 0 then opt.Replicas
       else s.Replicas), ?_, rfl⟩
    simp [CreateKubernetesObjects, h]
  · intro name s opt h
    refine ⟨InitDS name s, ?_, rfl⟩
    simp [CreateKubernetesObjects, h]

/-- Closed instance of `c10_deploy_dispatch`: a graph holding only a
ReplicationController deploys exactly like the empty graph — nothing is
created and no error is reported. -/
theorem c10_deploy_dispatch_witness :
    (KObject.replicationController ("web") (ConfigLabels ("web")) 1
      ("nginx")).kind = ObjKind.replicationController ∧
    deployK8sGo ⟨fun _ _ => .ok ()⟩
      [KObject.replicationController ("web") (ConfigLabels ("web")) 1
        ("nginx")] = deployK8sGo ⟨fun _ _ => .ok ()⟩ [] ∧
    deployK8sGo ⟨fun _ _ => .ok ()⟩
      [KObject.replicationController ("web") (ConfigLabels ("web")) 1
        ("nginx")] = ([], none) :=
  ⟨rfl,
    (c10_deploy_dispatch).2.1 ⟨fun _ _ => .ok ()⟩
      (KObject.replicationController ("web") (ConfigLabels ("web")) 1
        ("nginx")) [] [] (Or.inl rfl),
    rfl⟩

/-- C5: `getImageTag` returns the substring after the last colon of the last
slash-separated segment of the image reference when that segment contains
exactly one colon, and "latest" otherwise; on the three spec examples it
returns "latest", "1.2" and "latest"; and the BuildConfig declared output
target is the service name joined with ":" and that tag. -/
theorem getImageTag_spec :
    (∀ image : String,
      getImageTag image =
        if (afterLast '/' image.toList).count ':' = 1 then
          (afterLast ':' (afterLast '/' image.toList)).asString
        else "latest") ∧
    getImageTag ("registry.io:5000/team/app") = "latest" ∧
    getImageTag ("team/app:1.2") = "1.2" ∧
    getImageTag ("app") = "latest" ∧
    (∀ (or : TransformOracles) (name : String) (service : ServiceConfig)
      (repo branch : String) (bc : KObject),
      initBuildConfig or name service repo branch = .ok bc →
      bc.buildOutput = name ++ ":" ++ getImageTag service.Image) := by
  refine ⟨?_, rfl, rfl, rfl, ?_⟩
  · intro image
    simp only [getImageTag]
    have hseg : (if 2 ≤ (splitChar '/' image.toList).length
        then (splitChar '/' image.toList).getLastD [] else image.toList)
        = afterLast '/' image.toList := by
      split
      · exact getLastD_splitChar '/' image.toList
      · rename_i hlen
        have hc := length_splitChar '/' image.toList
        have hc0 : image.toList.count '/' = 0 := by omega
        rw [afterLast_of_not_mem '/' _ (List.count_eq_zero.mp hc0)]
    rw [hseg, length_splitChar]
    by_cases hc1 : (afterLast '/' image.toList).count ':' = 1
    · rw [if_pos (by omega), if_pos hc1, getLastD_splitChar]
    · rw [if_neg (by omega), if_neg hc1]
  · intro or name service repo branch bc h
    cases habs : or.absBuildContext service.Build with
    | error e => rw [initBuildConfig, habs] at h; exact absurd h (by simp)
    | ok contextDir =>
      rw [initBuildConfig, habs] at h
      simp only [Except.ok.injEq] at h
      rw [← h]
      rfl

/-- Closed instance of `getImageTag_spec`: the BuildConfig built for service
"web" from image "team/app:1.2" declares output target "web:1.2". -/
theorem getImageTag_spec_witness :
    initBuildConfig trivOracles ("web") { Image := ("team/app:1.2") } ("r") ("b") =
      .ok (KObject.buildConfig ("web") (ConfigLabels ("web")) ("r") ("b") ("")
        ("") [] ("web:1.2")) ∧
    (KObject.buildConfig ("web") (ConfigLabels ("web")) ("r") ("b") ("") ("") []
      ("web:1.2")).buildOutput = "web" ++ ":" ++ getImageTag ("team/app:1.2") :=
  ⟨rfl, getImageTag_spec.2.2.2.2 trivOracles ("web") { Image := ("team/app:1.2") }
    ("r") ("b") _ rfl⟩

end Kompose
